import Mathlib

/-!
# QCCTV packet codec: a shallow embedding

Embedding of `common/src/QCCTV.cpp` and `common/src/QCCTV_Communications.cpp`.

* A `QByteArray` is a list of bytes, a `QString` is a `String`, a C++ `int` is an
  `Int` (in the 32-bit range whenever it comes out of `QJsonValue::toInt`), a
  `quint32` is a `Nat` below `2 ^ 32`. The result of `int` arithmetic is reduced
  to the 32-bit two's complement range (`wrapInt32`).
* A function that writes through a packet pointer takes the packet as an
  `Option` (`none` is the null pointer) and returns the packet after the call
  next to its own result.
* The parts of the Qt library whose results are not fixed by a simple rule (the
  binary JSON format, Base64, the image encoder and decoder, resampling, text
  rendering) are the fields of a record `Qt`; the parts that are (the object
  API of `QJsonObject`, the conversions of `QJsonValue`, the guards of
  `QImage::scaled` and `QImage::save`) are definitions.
-/

namespace QCCTV

/-! ## Qt data types -/

/-- A `QByteArray`: a sequence of bytes. -/
abbrev QByteArray := List (Fin 256)

/-- Conversion of an unsigned value to `char`, as done by `QByteArray::prepend (char)`. -/
def toByte (n : Nat) : Fin 256 := ⟨n % 256, Nat.mod_lt _ (by decide)⟩

/-- The 32-bit two's complement `int` congruent to `n` modulo `2 ^ 32`: what an
arithmetic operation on `int` leaves when its exact result is `n`. -/
def wrapInt32 (n : Int) : Int := (n + 2147483648) % 4294967296 - 2147483648

/-- The operator `&` on two `int` values: the bitwise and of their 32-bit two's
complement patterns. -/
def intAnd (a b : Int) : Int :=
  wrapInt32 (Int.ofNat ((a % 4294967296).toNat &&& (b % 4294967296).toNat))

/-- A `QJsonValue`. A double is represented by the integer it is equal to
(`some n`) or by `none` when it is not integral; arrays and nested objects carry
no payload, because the codec never looks inside them. -/
inductive QJsonValue where
  | null
  | bool (b : Bool)
  | double (d : Option Int)
  | string (s : String)
  | array
  | object
  | undefined
deriving DecidableEq, Repr

namespace QJsonValue

/-- The constructor `QJsonValue (int)`: the integer is stored as a double. -/
def ofInt (n : Int) : QJsonValue := double (some n)

/-- The conversion `QJsonValue::toInt ()`: the value when it is a double that is equal to a
32-bit `int`, the default `0` otherwise. -/
def toInt : QJsonValue → Int
  | double (some n) => if -2147483648 ≤ n ∧ n ≤ 2147483647 then n else 0
  | _ => 0

/-- The conversion `QJsonValue::toBool ()`: the value when it is a boolean, `false` otherwise. -/
def toBool : QJsonValue → Bool
  | bool b => b
  | _ => false

/-- The conversion `QJsonValue::toString ()`: the value when it is a string, the null (empty)
string otherwise. -/
def toString : QJsonValue → String
  | string s => s
  | _ => ""

end QJsonValue

/-- A `QJsonObject`: the list of its (key, value) entries. -/
abbrev QJsonObject := List (String × QJsonValue)

namespace QJsonObject

/-- The member `QJsonObject::isEmpty ()`. -/
def isEmpty (o : QJsonObject) : Bool := List.isEmpty o

/-- The member `QJsonObject::remove (key)`. -/
def remove (o : QJsonObject) (key : String) : QJsonObject :=
  List.filter (fun e => e.1 != key) o

/-- The member `QJsonObject::insert (key, value)`: an entry with the same key is replaced,
and inserting an undefined value removes the key. -/
def insert (o : QJsonObject) (key : String) (value : QJsonValue) : QJsonObject :=
  match value with
  | QJsonValue.undefined => remove o key
  | v => (key, v) :: remove o key

/-- The member `QJsonObject::value (key)`: the undefined value when the key is absent. -/
def value (o : QJsonObject) (key : String) : QJsonValue :=
  match List.find? (fun e => e.1 == key) o with
  | some e => e.2
  | none => QJsonValue.undefined

/-- The member `QJsonObject::keys ()`. -/
def keys (o : QJsonObject) : List String := List.map Prod.fst o

end QJsonObject

/-- A `QSize`. -/
structure QSize where
  width : Int
  height : Int
deriving DecidableEq, Repr

/-- The member `QSize::isEmpty ()`: either side is below 1. -/
def QSize.isEmpty (s : QSize) : Bool := decide (s.width < 1) || decide (s.height < 1)

/-- A `QImage`: its dimensions and its pixel data. The null image has no
dimensions. -/
structure QImage where
  width : Nat
  height : Nat
  pixels : List Nat
deriving DecidableEq, Repr

namespace QImage

/-- The default-constructed `QImage ()`. -/
def null : QImage := ⟨0, 0, []⟩

/-- The member `QImage::isNull ()`. -/
def isNull (img : QImage) : Bool := img.width == 0 || img.height == 0

end QImage

/-- The Qt facilities the codec calls and whose output is not pinned down here. -/
structure Qt where
  /-- The call `QJsonDocument (json).toBinaryData ()`. -/
  toBinaryData : QJsonObject → QByteArray
  /-- The call `QJsonDocument::fromBinaryData (data).object ()`: the empty object when
  the data is not a valid document holding an object. -/
  fromBinaryData : QByteArray → QJsonObject
  /-- The call `QString (bytes.toBase64 ())`. -/
  toBase64 : QByteArray → String
  /-- The call `QByteArray::fromBase64 (text.toUtf8 ())`. -/
  fromBase64 : String → QByteArray
  /-- The resampling done by `QImage::scaled (size, Qt::KeepAspectRatio,
  Qt::FastTransformation)` on a non-null image and a non-empty size. -/
  resample : QImage → QSize → QImage
  /-- The image writer behind `QImage::save (device, QCCTV_IMAGE_FORMAT,
  quality)`, for a non-null image. -/
  imageWrite : QImage → Int → QByteArray
  /-- The member `QImage::fromData (data, QCCTV_IMAGE_FORMAT)`: the null image when the
  data does not decode. -/
  fromData : QByteArray → QImage
  /-- The pixels of a black pixmap of the given size with the text drawn
  centered in white. -/
  drawText : Nat → Nat → String → List Nat

/-- The member `QImage::scaled (size, aspectMode, mode)`: a null image when the image is
null or the requested size is empty. -/
def QImage.scaled (qt : Qt) (img : QImage) (s : QSize) : QImage :=
  if img.isNull then QImage.null
  else if s.isEmpty then QImage.null
  else qt.resample img s

/-- The member `QImage::save (&buffer, format, quality)` into an empty byte array: nothing
is written for a null image. -/
def QImage.save (qt : Qt) (img : QImage) (quality : Int) : QByteArray :=
  if img.isNull then [] else qt.imageWrite img quality

/-! ## The checksum engine -/

/-- Modelled from the spec: the class `QCCTV_CRC32` (`QCCTV_CRC32.h`) is not
among the sources. One step of the reflected CRC-32 division by the polynomial
`0xEDB88320`. -/
def crcBit (crc : Nat) : Nat :=
  if crc % 2 = 1 then (crc >>> 1) ^^^ 0xEDB88320 else crc >>> 1

/-- Modelled from the spec: the entry of the 256-entry table of `QCCTV_CRC32`
for the byte value `i`, eight division steps applied to `i`. -/
def crcTableEntry (i : Nat) : Nat :=
  crcBit (crcBit (crcBit (crcBit (crcBit (crcBit (crcBit (crcBit i)))))))

/-- Modelled from the spec: the 256-entry table of `QCCTV_CRC32`, built once. -/
def crcTable : List Nat := (List.range 256).map crcTableEntry

/-- Modelled from the spec: the table-driven update of the CRC register of
`QCCTV_CRC32` by one byte. -/
def crcUpdate (crc : Nat) (byte : Fin 256) : Nat :=
  crcTable.getD ((crc ^^^ byte.val) % 256) 0 ^^^ (crc >>> 8)

/-- Modelled from the spec: `QCCTV_CRC32::compute`, the standard CRC-32
(reflected, polynomial `0xEDB88320`, initial value `0xFFFFFFFF`, final
complement) of a byte buffer. -/
def crc32_compute (data : QByteArray) : Nat :=
  (data.foldl crcUpdate 0xFFFFFFFF) ^^^ 0xFFFFFFFF

/-! ## Declarations of `QCCTV.h` and `QCCTV_Communications.h` -/

/-- Modelled from the spec: the enumeration `QCCTV_Resolution` of `QCCTV.h`,
whose tiers are numbered in the order Original, QCIF, CIF, 2CIF, 4CIF, D1,
720p, 960p. -/
def QCCTV_Original : Int := 0

/-- Modelled from the spec: tier QCIF of `QCCTV_Resolution`. -/
def QCCTV_QCIF : Int := 1

/-- Modelled from the spec: tier CIF of `QCCTV_Resolution`. -/
def QCCTV_CIF : Int := 2

/-- Modelled from the spec: tier 2CIF of `QCCTV_Resolution`. -/
def QCCTV_2CIF : Int := 3

/-- Modelled from the spec: tier 4CIF of `QCCTV_Resolution`. -/
def QCCTV_4CIF : Int := 4

/-- Modelled from the spec: tier D1 of `QCCTV_Resolution`. -/
def QCCTV_D1 : Int := 5

/-- Modelled from the spec: tier 720p of `QCCTV_Resolution`. -/
def QCCTV_720p : Int := 6

/-- Modelled from the spec: tier 960p of `QCCTV_Resolution`. -/
def QCCTV_960p : Int := 7

/-- Modelled from the spec: the status mask `QCCTV_CAMSTATUS_DEFAULT` of
`QCCTV.h`, the default (OK) status. -/
def QCCTV_CAMSTATUS_DEFAULT : Int := 0

/-- The constants of `QCCTV.h` that the sources use and whose values are not
given anywhere: the bounds of the frame rate and of the watchdog time, and the
four status flags. -/
structure Constants where
  QCCTV_MIN_FPS : Int
  QCCTV_MAX_FPS : Int
  QCCTV_MIN_WATCHDOG_TIME : Int
  QCCTV_MAX_WATCHDOG_TIME : Int
  QCCTV_CAMSTATUS_LOW_BATTERY : Int
  QCCTV_CAMSTATUS_DISCHARING : Int
  QCCTV_CAMSTATUS_LIGHT_FAILURE : Int
  QCCTV_CAMSTATUS_VIDEO_FAILURE : Int
deriving DecidableEq, Repr

/-- Modelled from the spec: the structure `QCCTV_StreamPacket` of
`QCCTV_Communications.h`, one field per name used by the codec. -/
structure QCCTV_StreamPacket where
  crc32 : Nat
  fps : Int
  zoom : Int
  supportsZoom : Bool
  cameraName : String
  cameraGroup : String
  flashlightEnabled : Bool
  resolution : Int
  autoRegulateResolution : Bool
  cameraStatus : Int
  image : QImage
deriving DecidableEq, Repr

/-- Modelled from the spec: the structure `QCCTV_CommandPacket` of
`QCCTV_Communications.h`, one field per name used by the codec. -/
structure QCCTV_CommandPacket where
  oldFps : Int
  newFps : Int
  oldZoom : Int
  newZoom : Int
  focusRequest : Bool
  oldResolution : Int
  newResolution : Int
  oldFlashlightEnabled : Bool
  newFlashlightEnabled : Bool
  oldAutoRegulateResolution : Bool
  newAutoRegulateResolution : Bool
  fpsChanged : Bool
  zoomChanged : Bool
  resolutionChanged : Bool
  flashlightEnabledChanged : Bool
  autoRegulateResolutionChanged : Bool
deriving DecidableEq, Repr

/-! ## `QCCTV.cpp`

The functions that call `QObject::tr` take the translation as their first
argument `tr`; it is the identity when no translation is installed. -/

/-- If `a` is not empty, the function appends `b` to `a` and adds a separator.
Otherwise, this function shall return `b`. -/
def append_str (a b : String) : String :=
  if a.isEmpty then b else a ++ " | " ++ b

/-- Returns a valid FPS value. -/
def QCCTV_ValidFps (k : Constants) (fps : Int) : Int :=
  max (min fps k.QCCTV_MAX_FPS) k.QCCTV_MIN_FPS

/-- Returns a valid watchdog timeout value. The product `fps * 50` is an `int`
multiplication. -/
def QCCTV_GetWatchdogTime (k : Constants) (fps : Int) : Int :=
  max k.QCCTV_MIN_WATCHDOG_TIME (min (wrapInt32 (fps * 50)) k.QCCTV_MAX_WATCHDOG_TIME)

/-- Parses the given status flags as a string. -/
def QCCTV_GetStatusString (tr : String → String) (k : Constants) (status : Int) : String :=
  let str : String := ""
  let str := if intAnd status k.QCCTV_CAMSTATUS_LOW_BATTERY ≠ 0
    then append_str str (tr "Low Battery") else str
  let str := if intAnd status k.QCCTV_CAMSTATUS_DISCHARING ≠ 0
    then append_str str (tr "Discharging") else str
  let str := if intAnd status k.QCCTV_CAMSTATUS_LIGHT_FAILURE ≠ 0
    then append_str str (tr "Flashlight Failure") else str
  let str := if intAnd status k.QCCTV_CAMSTATUS_VIDEO_FAILURE ≠ 0
    then append_str str (tr "Video Failure") else str
  let str := if status = QCCTV_CAMSTATUS_DEFAULT then tr "Camera OK" else str
  str

/-- Returns the available image resolutions. -/
def QCCTV_Resolutions (tr : String → String) : List String :=
  let list : List String := []
  let list := list ++ [tr "QCIF (176x120)"]
  let list := list ++ [tr "CIF (352x240)"]
  let list := list ++ [tr "2CIF (704x240)"]
  let list := list ++ [tr "4CIF (704x480)"]
  let list := list ++ [tr "D1 (720x480)"]
  let list := list ++ [tr "720p (1280x720)"]
  let list := list ++ [tr "960p (1280x960)"]
  list

/-- Gets the frame size for the given resolution. -/
def QCCTV_GetResolution (resolution : Int) : QSize :=
  if resolution = QCCTV_QCIF then ⟨176, 144⟩
  else if resolution = QCCTV_CIF then ⟨352, 240⟩
  else if resolution = QCCTV_2CIF then ⟨704, 240⟩
  else if resolution = QCCTV_4CIF then ⟨704, 480⟩
  else if resolution = QCCTV_D1 then ⟨720, 480⟩
  else if resolution = QCCTV_720p then ⟨1280, 720⟩
  else if resolution = QCCTV_960p then ⟨1280, 960⟩
  else ⟨0, 0⟩

/-- Returns the raw bytes of the encoded image. The quality is an `int`
expression; reducing its exact value once gives what reducing after each of its
three operations gives. -/
def QCCTV_EncodeImage (qt : Qt) (image : QImage) (res : Int) : QByteArray :=
  let final := QImage.scaled qt image (QCCTV_GetResolution res)
  let quality : Int := max (wrapInt32 ((10 - (res + 1)) * 10)) 40
  QImage.save qt final quality

/-- Generates an image from the given data. -/
def QCCTV_DecodeImage (qt : Qt) (data : QByteArray) : QImage :=
  qt.fromData data

/-- Generates an image with the given size and text: a pixmap of that size
(null when the size is empty), filled in black, with the text painted on it. -/
def QCCTV_CreateStatusImage (qt : Qt) (size : QSize) (text : String) : QImage :=
  if size.isEmpty then QImage.null
  else ⟨size.width.toNat, size.height.toNat,
        qt.drawText size.width.toNat size.height.toNat text⟩

/-! ## `QCCTV_Communications.cpp` -/

/-- Stream packet key. -/
def KEY_FPS : String := "fps"
/-- Stream packet key. -/
def KEY_ZOOM : String := "zoom"
/-- Stream packet key. -/
def KEY_NAME : String := "name"
/-- Stream packet key. -/
def KEY_GROUP : String := "group"
/-- Stream packet key. -/
def KEY_STATUS : String := "status"
/-- Stream packet key. -/
def KEY_RESOLUTION : String := "resolution"
/-- Stream packet key. -/
def KEY_FLASHLIGHT : String := "flashlight"
/-- Stream packet key. -/
def KEY_ZOOM_AVAIL : String := "zoomSupported"
/-- Stream packet key. -/
def KEY_AUTOREGRES : String := "autoRegulateResolution"

/-- Command packet key. -/
def KEY_OLD_FPS : String := "o_fps"
/-- Command packet key. -/
def KEY_NEW_FPS : String := "n_fps"
/-- Command packet key. -/
def KEY_OLD_ZOOM : String := "o_zoom"
/-- Command packet key. -/
def KEY_NEW_ZOOM : String := "n_zoom"
/-- Command packet key. -/
def KEY_FOCUS_REQUEST : String := "focus"
/-- Command packet key. -/
def KEY_OLD_RESOLUTION : String := "o_res"
/-- Command packet key. -/
def KEY_NEW_RESOLUTION : String := "n_res"
/-- Command packet key. -/
def KEY_OLD_FLASHLIGHT : String := "o_flashlight"
/-- Command packet key. -/
def KEY_NEW_FLASHLIGHT : String := "n_flashlight"
/-- Command packet key. -/
def KEY_OLD_AUTOREGRES : String := "o_autoRegulateResolution"
/-- Command packet key. -/
def KEY_NEW_AUTOREGRES : String := "n_autoRegulateResolution"

/-- Initializes the default values for the given stream packet. -/
def QCCTV_InitStream (qt : Qt) (packet : Option QCCTV_StreamPacket) :
    Option QCCTV_StreamPacket :=
  match packet with
  | none => none
  | some p =>
    some { p with
      fps := 18
      crc32 := 0
      zoom := 0
      supportsZoom := false
      cameraName := "Unknown"
      cameraGroup := "Default"
      flashlightEnabled := false
      resolution := QCCTV_Original
      autoRegulateResolution := true
      cameraStatus := QCCTV_CAMSTATUS_DEFAULT
      image := QCCTV_CreateStatusImage qt ⟨640, 480⟩ "NO CAMERA IMAGE" }

/-- The JSON object `QCCTV_CreateStreamPacket` builds before it serializes it. -/
def streamJson (qt : Qt) (packet : QCCTV_StreamPacket) : QJsonObject :=
  let json : QJsonObject := []
  let json := json.insert KEY_FPS (QJsonValue.ofInt packet.fps)
  let json := json.insert KEY_ZOOM (QJsonValue.ofInt packet.zoom)
  let json := json.insert KEY_NAME (QJsonValue.string packet.cameraName)
  let json := json.insert KEY_GROUP (QJsonValue.string packet.cameraGroup)
  let json := json.insert KEY_STATUS (QJsonValue.ofInt packet.cameraStatus)
  let json := json.insert KEY_RESOLUTION (QJsonValue.ofInt packet.resolution)
  let json := json.insert KEY_ZOOM_AVAIL (QJsonValue.bool packet.supportsZoom)
  let json := json.insert KEY_FLASHLIGHT (QJsonValue.bool packet.flashlightEnabled)
  let json := json.insert KEY_AUTOREGRES (QJsonValue.bool packet.autoRegulateResolution)
  let res := packet.resolution
  let image := QCCTV_EncodeImage qt packet.image res
  if !image.isEmpty then json.insert "image" (QJsonValue.string (qt.toBase64 image))
  else json

/-- Reads the given stream packet and generates the binary data that can be
sent through a network socket to a connected QCCTV Station. -/
def QCCTV_CreateStreamPacket (qt : Qt) (packet : QCCTV_StreamPacket) : QByteArray :=
  let json := streamJson qt packet
  let data := qt.toBinaryData json
  let crc := crc32_compute data
  let data := toByte (crc &&& 0xff) :: data
  let data := toByte ((crc &&& 0xff00) >>> 8) :: data
  let data := toByte ((crc &&& 0xff0000) >>> 16) :: data
  let data := toByte ((crc &&& 0xff000000) >>> 24) :: data
  data

/-- Reads the given binary data and updates the values of the given stream
packet structure; the first component is `true` on success, `false` on
failure. -/
def QCCTV_ReadStreamPacket (qt : Qt) (packet : Option QCCTV_StreamPacket)
    (data : QByteArray) : Bool × Option QCCTV_StreamPacket :=
  match packet with
  | none => (false, none)
  | some p =>
    if data.length < 4 then (false, some p)
    else
      let a := (data.getD 0 0).val
      let b := (data.getD 1 0).val
      let c := (data.getD 2 0).val
      let d := (data.getD 3 0).val
      let p := { p with crc32 := ((a <<< 24) ||| (b <<< 16) ||| (c <<< 8) ||| (d &&& 0xff)) % 2 ^ 32 }
      let stream := data.drop 4
      let crc := crc32_compute stream
      if p.crc32 != crc then (false, some p)
      else
        let json := qt.fromBinaryData stream
        if json.isEmpty then (false, some p)
        else
          let p := { p with
            fps := (json.value KEY_FPS).toInt
            zoom := (json.value KEY_ZOOM).toInt
            cameraName := (json.value KEY_NAME).toString
            cameraStatus := (json.value KEY_STATUS).toInt
            cameraGroup := (json.value KEY_GROUP).toString
            resolution := (json.value KEY_RESOLUTION).toInt
            supportsZoom := (json.value KEY_ZOOM_AVAIL).toBool
            flashlightEnabled := (json.value KEY_FLASHLIGHT).toBool
            autoRegulateResolution := (json.value KEY_AUTOREGRES).toBool }
          -- the UTF-8 bytes of a text are empty exactly when the text is
          let base64 := (json.value "image").toString
          let p := if !base64.isEmpty then
              { p with image := QCCTV_DecodeImage qt (qt.fromBase64 base64) }
            else p
          (!p.image.isNull, some p)

/-- The JSON object `QCCTV_CreateCommandPacket` builds before it serializes it. -/
def commandJson (packet : QCCTV_CommandPacket) : QJsonObject :=
  let json : QJsonObject := []
  let json := json.insert KEY_OLD_FPS (QJsonValue.ofInt packet.oldFps)
  let json := json.insert KEY_NEW_FPS (QJsonValue.ofInt packet.newFps)
  let json := json.insert KEY_OLD_ZOOM (QJsonValue.ofInt packet.oldZoom)
  let json := json.insert KEY_NEW_ZOOM (QJsonValue.ofInt packet.newZoom)
  let json := json.insert KEY_FOCUS_REQUEST (QJsonValue.bool packet.focusRequest)
  let json := json.insert KEY_OLD_RESOLUTION (QJsonValue.ofInt packet.oldResolution)
  let json := json.insert KEY_NEW_RESOLUTION (QJsonValue.ofInt packet.newResolution)
  let json := json.insert KEY_OLD_FLASHLIGHT (QJsonValue.bool packet.oldFlashlightEnabled)
  let json := json.insert KEY_NEW_FLASHLIGHT (QJsonValue.bool packet.newFlashlightEnabled)
  let json := json.insert KEY_OLD_AUTOREGRES (QJsonValue.bool packet.oldAutoRegulateResolution)
  let json := json.insert KEY_NEW_AUTOREGRES (QJsonValue.bool packet.newAutoRegulateResolution)
  json

/-- Reads the given command packet and generates the binary data that can be
sent through a network socket to a connected QCCTV Camera. -/
def QCCTV_CreateCommandPacket (qt : Qt) (packet : QCCTV_CommandPacket) : QByteArray :=
  qt.toBinaryData (commandJson packet)

/-- Reads the given binary data and updates the values of the given command
packet structure; the first component is `true` on success, `false` on
failure. -/
def QCCTV_ReadCommandPacket (qt : Qt) (packet : Option QCCTV_CommandPacket)
    (data : QByteArray) : Bool × Option QCCTV_CommandPacket :=
  match packet with
  | none => (false, none)
  | some p =>
    if data.isEmpty then (false, some p)
    else
      let json := qt.fromBinaryData data
      if json.isEmpty then (false, some p)
      else
        let p := { p with
          oldFps := (json.value KEY_OLD_FPS).toInt
          newFps := (json.value KEY_NEW_FPS).toInt
          oldZoom := (json.value KEY_OLD_ZOOM).toInt
          newZoom := (json.value KEY_NEW_ZOOM).toInt
          focusRequest := (json.value KEY_FOCUS_REQUEST).toBool
          oldResolution := (json.value KEY_OLD_RESOLUTION).toInt
          newResolution := (json.value KEY_NEW_RESOLUTION).toInt
          oldFlashlightEnabled := (json.value KEY_OLD_FLASHLIGHT).toBool
          newFlashlightEnabled := (json.value KEY_NEW_FLASHLIGHT).toBool
          oldAutoRegulateResolution := (json.value KEY_OLD_AUTOREGRES).toBool
          newAutoRegulateResolution := (json.value KEY_NEW_AUTOREGRES).toBool }
        let p := { p with
          fpsChanged := (p.oldFps != p.newFps)
          zoomChanged := (p.oldZoom != p.newZoom)
          resolutionChanged := (p.oldResolution != p.newResolution)
          flashlightEnabledChanged := (p.oldFlashlightEnabled != p.newFlashlightEnabled)
          autoRegulateResolutionChanged :=
            (p.oldAutoRegulateResolution != p.newAutoRegulateResolution) }
        (true, some p)

/-! ## A concrete instance of the Qt facilities

A small, executable instance of `Qt`, on which the codec can be run: a
self-describing binary record format, hexadecimal text for the embedded image,
and an image format that stores the two dimensions followed by the pixels. -/

namespace Demo

/-- The bytes of a text, one per character, closed by a zero byte. -/
def writeText (s : String) : QByteArray :=
  s.toList.map (fun c => toByte c.toNat) ++ [0]

/-- Reads the characters up to the closing zero byte. -/
def readText : QByteArray → Option (List Char × QByteArray)
  | [] => none
  | b :: rest =>
    if b = 0 then some ([], rest)
    else match readText rest with
      | some (cs, rest) => some (Char.ofNat b.val :: cs, rest)
      | none => none

/-- The four bytes of a 32-bit integer in two's complement, most significant first. -/
def writeInt (n : Int) : QByteArray :=
  let u := (n % 4294967296).toNat
  [toByte (u / 16777216), toByte (u / 65536), toByte (u / 256), toByte u]

/-- The tag and payload of a value. -/
def writeValue : QJsonValue → QByteArray
  | QJsonValue.null => [0]
  | QJsonValue.bool false => [1]
  | QJsonValue.bool true => [2]
  | QJsonValue.double (some n) =>
    if -2147483648 ≤ n ∧ n ≤ 2147483647 then 3 :: writeInt n else [4]
  | QJsonValue.double none => [4]
  | QJsonValue.string s => 5 :: writeText s
  | QJsonValue.array => [6]
  | QJsonValue.object => [7]
  | QJsonValue.undefined => [0]

/-- Reads the tag and payload of a value. -/
def readValue : QByteArray → Option (QJsonValue × QByteArray)
  | 0 :: rest => some (QJsonValue.null, rest)
  | 1 :: rest => some (QJsonValue.bool false, rest)
  | 2 :: rest => some (QJsonValue.bool true, rest)
  | 3 :: a :: b :: c :: d :: rest =>
    let u : Int := ((a.val * 256 + b.val) * 256 + c.val) * 256 + d.val
    some (QJsonValue.double (some (if u < 2147483648 then u else u - 4294967296)), rest)
  | 4 :: rest => some (QJsonValue.double none, rest)
  | 5 :: rest =>
    match readText rest with
    | some (cs, rest) => some (QJsonValue.string (String.mk cs), rest)
    | none => none
  | 6 :: rest => some (QJsonValue.array, rest)
  | 7 :: rest => some (QJsonValue.object, rest)
  | _ => none

/-- The entries of an object, each a key followed by a value. -/
def writeEntries : QJsonObject → QByteArray
  | [] => []
  | (k, v) :: rest => writeText k ++ writeValue v ++ writeEntries rest

/-- Reads entries until the input ends; the first argument bounds their number. -/
def readEntries : Nat → QByteArray → Option QJsonObject
  | _, [] => some []
  | 0, _ :: _ => none
  | fuel + 1, b :: bytes =>
    match readText (b :: bytes) with
    | none => none
    | some (k, rest) =>
      match readValue rest with
      | none => none
      | some (v, rest) =>
        match readEntries fuel rest with
        | none => none
        | some o => some ((String.mk k, v) :: o)

/-- Serializes an object: a one-byte header, then the entries. -/
def toBinaryData (o : QJsonObject) : QByteArray := 113 :: writeEntries o

/-- Parses a serialized object; the empty object when the bytes are malformed. -/
def fromBinaryData : QByteArray → QJsonObject
  | 113 :: rest => (readEntries rest.length rest).getD []
  | _ => []

/-- The hexadecimal digit of a value below sixteen. -/
def hexDigit (n : Nat) : Char := Char.ofNat (if n < 10 then 48 + n else 87 + n)

/-- The value of a hexadecimal digit. -/
def hexValue (c : Char) : Nat := if c.toNat < 58 then c.toNat - 48 else c.toNat - 87

/-- Text encoding of a byte buffer: two hexadecimal digits per byte. -/
def toText (bytes : QByteArray) : String :=
  String.mk (bytes.flatMap (fun b => [hexDigit (b.val / 16), hexDigit (b.val % 16)]))

/-- Decodes pairs of hexadecimal digits. -/
def fromHex : List Char → QByteArray
  | hi :: lo :: rest => toByte (hexValue hi * 16 + hexValue lo) :: fromHex rest
  | _ => []

/-- Decodes the text encoding of a byte buffer. -/
def fromText (s : String) : QByteArray := fromHex s.toList

/-- Image file: width, height, then the pixels. -/
def imageWrite (img : QImage) (_quality : Int) : QByteArray :=
  toByte img.width :: toByte img.height :: img.pixels.map toByte

/-- Image file reader: the null image when a dimension is missing or zero. -/
def fromData : QByteArray → QImage
  | w :: h :: px => if w = 0 ∨ h = 0 then QImage.null else ⟨w.val, h.val, px.map Fin.val⟩
  | _ => QImage.null

/-- Resampling: the requested dimensions, with the source pixels. -/
def resample (img : QImage) (s : QSize) : QImage :=
  ⟨s.width.toNat, s.height.toNat, img.pixels⟩

/-- Text rendering: the character codes of the text. -/
def drawText (_w _h : Nat) (text : String) : List Nat := text.toList.map Char.toNat

/-- The concrete instance. -/
def qt : Qt :=
  { toBinaryData := toBinaryData
    fromBinaryData := fromBinaryData
    toBase64 := toText
    fromBase64 := fromText
    resample := resample
    imageWrite := imageWrite
    fromData := fromData
    drawText := drawText }

end Demo

/-! ## Notions used to state the properties -/

/-- The first four bytes of a buffer read as a big-endian 32-bit value. -/
def declaredChecksum (data : QByteArray) : Nat :=
  (data.getD 0 0).val * 2 ^ 24 + (data.getD 1 0).val * 2 ^ 16
    + (data.getD 2 0).val * 2 ^ 8 + (data.getD 3 0).val

/-- The buffer with bit `i` inverted, bits being numbered from the first byte
on, eight per byte, the least significant bit of a byte first. -/
def flipBit : QByteArray → Nat → QByteArray
  | [], _ => []
  | b :: rest, i =>
    if i < 8 then toByte (b.val ^^^ 2 ^ i) :: rest else b :: flipBit rest (i - 8)

/-- The value is a 32-bit `int`. -/
@[reducible] def isInt32 (n : Int) : Prop := -2147483648 ≤ n ∧ n ≤ 2147483647

/-- Two objects are the same for a reader: both empty or both not, and the same
value under every key. -/
def sameObject (a b : QJsonObject) : Prop :=
  a.isEmpty = b.isEmpty ∧ ∀ key, a.value key = b.value key

/-- The list of the eleven keys of a command record. -/
def commandKeys : List String :=
  ["o_fps", "n_fps", "o_zoom", "n_zoom", "focus", "o_res", "n_res", "o_flashlight",
   "n_flashlight", "o_autoRegulateResolution", "n_autoRegulateResolution"]

/-- A stream packet as it is before any initialization: every field zero and a
null image. -/
def blankStream : QCCTV_StreamPacket :=
  ⟨0, 0, 0, false, "", "", false, 0, false, 0, QImage.null⟩

/-- A camera report at tier QCIF with a 2x2 frame. -/
def sampleStream : QCCTV_StreamPacket :=
  ⟨0, 18, 2, true, "cam", "lab", false, QCCTV_QCIF, true, 0, ⟨2, 2, [1, 2, 3, 4]⟩⟩

/-- The same camera report at tier Original. -/
def originalStream : QCCTV_StreamPacket :=
  { sampleStream with resolution := QCCTV_Original }

/-- A command that raises the frame rate from 18 to 24 and changes nothing
else; its changed flags hold arbitrary values. -/
def sampleCommand : QCCTV_CommandPacket :=
  ⟨18, 24, 0, 0, false, 0, 0, false, false, true, true, false, true, true, true, true⟩

/-- A command packet with every field zero. -/
def blankCommand : QCCTV_CommandPacket :=
  ⟨0, 0, 0, 0, false, 0, 0, false, false, false, false, false, false, false, false, false⟩

/-- A stream packet on the wire whose record has the single entry `fps = 18`
and no `image` entry: the four checksum bytes, then the record as the concrete
instance serializes it. -/
def recordWithoutImage : QByteArray :=
  [16, 177, 46, 64, 113, 102, 112, 115, 0, 3, 0, 0, 0, 18]

/-- The command `sampleCommand` with each of its five changed flags inverted. -/
def sampleCommandFlipped : QCCTV_CommandPacket :=
  { sampleCommand with
    fpsChanged := true
    zoomChanged := false
    resolutionChanged := false
    flashlightEnabledChanged := false
    autoRegulateResolutionChanged := false }

/-- A command whose values are all outside the ranges a camera accepts. -/
def wildCommand : QCCTV_CommandPacket :=
  ⟨-5, 100000, 0, -1, true, 99, -7, true, false, false, true, false, false, false, false, false⟩

/-- The quality `QCCTV_EncodeImage` computes for a tier index before it saves
the image. -/
def imageQuality (res : Int) : Int := max (wrapInt32 ((10 - (res + 1)) * 10)) 40

/-- The names of the flags set in a status mask, in the order in which
`QCCTV_GetStatusString` tests them. -/
def activeStatusNames (k : Constants) (status : Int) : List String :=
  (if intAnd status k.QCCTV_CAMSTATUS_LOW_BATTERY ≠ 0 then ["Low Battery"] else [])
    ++ (if intAnd status k.QCCTV_CAMSTATUS_DISCHARING ≠ 0 then ["Discharging"] else [])
    ++ (if intAnd status k.QCCTV_CAMSTATUS_LIGHT_FAILURE ≠ 0 then ["Flashlight Failure"]
        else [])
    ++ (if intAnd status k.QCCTV_CAMSTATUS_VIDEO_FAILURE ≠ 0 then ["Video Failure"] else [])

/-- Reads a decimal number at the head of a text; the second argument is the
value of the digits read so far. -/
def readNumber : List Char → Nat → Nat × List Char
  | [], acc => (acc, [])
  | c :: cs, acc =>
    if c.isDigit then readNumber cs (acc * 10 + (c.toNat - 48)) else (acc, c :: cs)

/-- The width and height written in a label of the form `NAME (WxH)`. -/
def labelSize (label : String) : Option (Int × Int) :=
  match label.toList.dropWhile (fun c => c != '(') with
  | '(' :: rest =>
    match readNumber rest 0 with
    | (w, 'x' :: rest) =>
      match readNumber rest 0 with
      | (h, ')' :: _) => some (Int.ofNat w, Int.ofNat h)
      | _ => none
    | _ => none
  | _ => none

/-- The width and height of a size, as a pair. -/
def sizePair (s : QSize) : Int × Int := (s.width, s.height)

/-- A choice of the constants of `QCCTV.h`: frame rates from 1 to 40, watchdog
times from 1000 to 5000, and the four status flags on the bits 0 to 3. -/
def sampleConstants : Constants := ⟨1, 40, 1000, 5000, 1, 2, 4, 8⟩

set_option maxRecDepth 100000

/-! ## Lemmas on the checksum -/

theorem crcBit_lt (x : Nat) (h : x < 2 ^ 32) : crcBit x < 2 ^ 32 := by
  unfold crcBit
  have h1 : x >>> 1 < 2 ^ 32 := by
    rw [Nat.shiftRight_eq_div_pow]; omega
  split
  · exact Nat.xor_lt_two_pow h1 (by decide)
  · exact h1

theorem crcBit_xor (a b : Nat) : crcBit (a ^^^ b) = crcBit a ^^^ crcBit b := by
  have hs : (a ^^^ b) >>> 1 = a >>> 1 ^^^ b >>> 1 := by
    apply Nat.eq_of_testBit_eq
    intro i
    simp [Nat.testBit_shiftRight, Nat.testBit_xor]
  have hm : (a ^^^ b) % 2 = (a + b) % 2 := Nat.xor_mod_two_eq
  unfold crcBit
  rw [hs, hm]
  by_cases ha : a % 2 = 1 <;> by_cases hb : b % 2 = 1
  · have : ¬ (a + b) % 2 = 1 := by omega
    simp only [ha, hb, this, if_true, if_false]
    apply Nat.eq_of_testBit_eq
    intro i
    simp only [Nat.testBit_xor]
    cases (a >>> 1).testBit i <;> cases (b >>> 1).testBit i <;>
      cases (3988292384 : Nat).testBit i <;> rfl
  · have : (a + b) % 2 = 1 := by omega
    simp only [ha, hb, this, if_true, if_false]
    apply Nat.eq_of_testBit_eq
    intro i
    simp only [Nat.testBit_xor]
    cases (a >>> 1).testBit i <;> cases (b >>> 1).testBit i <;>
      cases (3988292384 : Nat).testBit i <;> rfl
  · have : (a + b) % 2 = 1 := by omega
    simp only [ha, hb, this, if_true, if_false]
    apply Nat.eq_of_testBit_eq
    intro i
    simp only [Nat.testBit_xor]
    cases (a >>> 1).testBit i <;> cases (b >>> 1).testBit i <;>
      cases (3988292384 : Nat).testBit i <;> rfl
  · have : ¬ (a + b) % 2 = 1 := by omega
    simp only [ha, hb, this, if_true, if_false]

theorem crcBit_iterate_xor (k a b : Nat) :
    crcBit^[k] (a ^^^ b) = crcBit^[k] a ^^^ crcBit^[k] b := by
  induction k generalizing a b with
  | zero => rfl
  | succ k ih => simp only [Function.iterate_succ, Function.comp_apply, crcBit_xor, ih]

theorem crcBit_double (y : Nat) : crcBit (2 * y) = y := by
  unfold crcBit
  have h : ¬ (2 * y) % 2 = 1 := by omega
  rw [if_neg h, Nat.shiftRight_eq_div_pow]
  omega

theorem crcBit_iterate_shift (k y : Nat) : crcBit^[k] (2 ^ k * y) = y := by
  induction k with
  | zero => simp
  | succ k ih =>
    have h : 2 ^ (k + 1) * y = 2 * (2 ^ k * y) := by ring
    rw [Function.iterate_succ, Function.comp_apply, h, crcBit_double, ih]

theorem split_low_high (k x : Nat) : x = (x % 2 ^ k) ^^^ (2 ^ k * (x / 2 ^ k)) := by
  apply Nat.eq_of_testBit_eq
  intro i
  rw [Nat.testBit_xor, Nat.testBit_mod_two_pow, Nat.testBit_mul_pow_two,
    ← Nat.shiftRight_eq_div_pow, Nat.testBit_shiftRight]
  by_cases h : i < k
  · have h2 : ¬ i ≥ k := by omega
    simp [h, h2]
  · have h2 : i ≥ k := by omega
    have h3 : k + (i - k) = i := by omega
    simp [h, h2, h3]

theorem crcBit_iterate_split (k x : Nat) :
    crcBit^[k] x = crcBit^[k] (x % 2 ^ k) ^^^ (x / 2 ^ k) := by
  conv_lhs => rw [split_low_high k x]
  rw [crcBit_iterate_xor, crcBit_iterate_shift]

theorem crcTable_getD (i : Nat) (h : i < 256) : crcTable.getD i 0 = crcBit^[8] i := by
  have hl : i < crcTable.length := by simp [crcTable, h]
  rw [List.getD_eq_getElem _ _ hl]
  simp [crcTable, crcTableEntry]

theorem crcUpdate_eq (s : Nat) (b : Fin 256) : crcUpdate s b = crcBit^[8] (s ^^^ b.val) := by
  have hb : b.val / 2 ^ 8 = 0 := by have := b.isLt; omega
  have hs : (s ^^^ b.val) / 2 ^ 8 = s >>> 8 := by
    rw [← Nat.shiftRight_eq_div_pow]
    apply Nat.eq_of_testBit_eq
    intro i
    have hle : 2 ^ 8 ≤ 2 ^ (8 + i) := Nat.pow_le_pow_right (by decide) (by omega)
    have hbi : b.val.testBit (8 + i) = false :=
      Nat.testBit_lt_two_pow (lt_of_lt_of_le b.isLt hle)
    simp [Nat.testBit_shiftRight, Nat.testBit_xor, hbi]
  rw [crcBit_iterate_split 8 (s ^^^ b.val), hs, crcUpdate,
    crcTable_getD _ (Nat.mod_lt _ (by decide))]
  rfl

/-- A left inverse of one division step on 32-bit values. -/
theorem crcBit_injOn (x y : Nat) (hx : x < 2 ^ 32) (hy : y < 2 ^ 32)
    (h : crcBit x = crcBit y) : x = y := by
  have key : ∀ z, z < 2 ^ 32 →
      (crcBit z).testBit 31 = decide (z % 2 = 1) ∧
      z / 2 = (if z % 2 = 1 then crcBit z ^^^ 0xEDB88320 else crcBit z) := by
    intro z hz
    have h1 : z >>> 1 < 2 ^ 31 := by rw [Nat.shiftRight_eq_div_pow]; omega
    have h2 : (z >>> 1).testBit 31 = false := Nat.testBit_lt_two_pow h1
    have h3 : z >>> 1 = z / 2 := by rw [Nat.shiftRight_eq_div_pow, Nat.pow_one]
    unfold crcBit
    by_cases hz1 : z % 2 = 1
    · simp only [hz1, if_true, Nat.testBit_xor, h2, Nat.xor_cancel_right]
      exact ⟨by decide, h3.symm⟩
    · simp only [hz1, if_false, h2]
      exact ⟨by simp, h3.symm⟩
  obtain ⟨hx1, hx2⟩ := key x hx
  obtain ⟨hy1, hy2⟩ := key y hy
  rw [h] at hx1 hx2
  have hp : (x % 2 = 1) ↔ (y % 2 = 1) := by
    have := hx1.symm.trans hy1
    simpa using this
  by_cases hx' : x % 2 = 1
  · have hy' := hp.mp hx'
    rw [if_pos hx'] at hx2; rw [if_pos hy'] at hy2
    omega
  · have hy' : ¬ y % 2 = 1 := fun h => hx' (hp.mpr h)
    rw [if_neg hx'] at hx2; rw [if_neg hy'] at hy2
    omega

theorem crcBit_iterate_lt (k x : Nat) (h : x < 2 ^ 32) : crcBit^[k] x < 2 ^ 32 := by
  induction k generalizing x with
  | zero => exact h
  | succ k ih =>
    rw [Function.iterate_succ, Function.comp_apply]
    exact ih _ (crcBit_lt x h)

theorem crcBit_iterate_injOn (k x y : Nat) (hx : x < 2 ^ 32) (hy : y < 2 ^ 32)
    (h : crcBit^[k] x = crcBit^[k] y) : x = y := by
  induction k generalizing x y with
  | zero => exact h
  | succ k ih =>
    simp only [Function.iterate_succ, Function.comp_apply] at h
    exact crcBit_injOn x y hx hy (ih _ _ (crcBit_lt x hx) (crcBit_lt y hy) h)

theorem crcUpdate_lt (s : Nat) (b : Fin 256) (hs : s < 2 ^ 32) : crcUpdate s b < 2 ^ 32 := by
  rw [crcUpdate_eq]
  exact crcBit_iterate_lt 8 _
    (Nat.xor_lt_two_pow hs (lt_of_lt_of_le b.isLt (by decide)))

theorem crcUpdate_inj (s t : Nat) (b c : Fin 256) (hs : s < 2 ^ 32) (ht : t < 2 ^ 32)
    (h : crcUpdate s b = crcUpdate t c) : s ^^^ b.val = t ^^^ c.val := by
  rw [crcUpdate_eq, crcUpdate_eq] at h
  exact crcBit_iterate_injOn 8 _ _
    (Nat.xor_lt_two_pow hs (lt_of_lt_of_le b.isLt (by decide)))
    (Nat.xor_lt_two_pow ht (lt_of_lt_of_le c.isLt (by decide))) h

theorem crcFold_lt (data : QByteArray) (s : Nat) (hs : s < 2 ^ 32) :
    data.foldl crcUpdate s < 2 ^ 32 := by
  induction data generalizing s with
  | nil => exact hs
  | cons b rest ih => exact ih _ (crcUpdate_lt s b hs)

theorem crcFold_ne (data : QByteArray) (s t : Nat) (hs : s < 2 ^ 32) (ht : t < 2 ^ 32)
    (h : s ≠ t) : data.foldl crcUpdate s ≠ data.foldl crcUpdate t := by
  induction data generalizing s t with
  | nil => exact h
  | cons b rest ih =>
    refine ih _ _ (crcUpdate_lt s b hs) (crcUpdate_lt t b ht) ?_
    intro e
    exact h (Nat.xor_left_injective (crcUpdate_inj s t b b hs ht e))

theorem crc32_compute_lt (data : QByteArray) : crc32_compute data < 2 ^ 32 :=
  Nat.xor_lt_two_pow (crcFold_lt data _ (by decide)) (by decide)

/-! ## Lemmas on the byte order of the checksum -/

theorem mask_shift (x k : Nat) : (x &&& ((2 ^ 8 - 1) <<< k)) >>> k = (x / 2 ^ k) % 2 ^ 8 := by
  apply Nat.eq_of_testBit_eq
  intro i
  rw [Nat.testBit_shiftRight, Nat.testBit_and, Nat.testBit_shiftLeft,
    Nat.testBit_two_pow_sub_one, Nat.testBit_mod_two_pow, ← Nat.shiftRight_eq_div_pow,
    Nat.testBit_shiftRight]
  have h1 : k + i ≥ k := by omega
  have h2 : k + i - k = i := by omega
  simp only [h1, h2, decide_True, Bool.true_and]
  exact Bool.and_comm _ _

theorem or_bytes (a b c d : Nat) (ha : a < 256) (hb : b < 256) (hc : c < 256) (hd : d < 256) :
    ((a <<< 24) ||| (b <<< 16) ||| (c <<< 8) ||| (d &&& 0xff)) % 2 ^ 32 =
      a * 2 ^ 24 + b * 2 ^ 16 + c * 2 ^ 8 + d := by
  have hd' : d &&& 0xff = d := by
    rw [show (0xff : Nat) = 2 ^ 8 - 1 from rfl, Nat.and_pow_two_sub_one_eq_mod]
    exact Nat.mod_eq_of_lt hd
  rw [hd', Nat.or_assoc, Nat.or_assoc, Nat.shiftLeft_eq, Nat.shiftLeft_eq, Nat.shiftLeft_eq,
    Nat.mul_comm c, Nat.mul_comm b, Nat.mul_comm a,
    ← Nat.mul_add_lt_is_or (by omega : d < 2 ^ 8) c,
    ← Nat.mul_add_lt_is_or (by omega : 2 ^ 8 * c + d < 2 ^ 16) b,
    ← Nat.mul_add_lt_is_or (by omega : 2 ^ 16 * b + (2 ^ 8 * c + d) < 2 ^ 24) a]
  omega

theorem checksum_bytes (v : Nat) (h : v < 2 ^ 32) :
    (toByte ((v &&& 0xff000000) >>> 24)).val * 2 ^ 24
      + (toByte ((v &&& 0xff0000) >>> 16)).val * 2 ^ 16
      + (toByte ((v &&& 0xff00) >>> 8)).val * 2 ^ 8
      + (toByte (v &&& 0xff)).val = v := by
  have h24 := mask_shift v 24
  have h16 := mask_shift v 16
  have h8 := mask_shift v 8
  have h0 := mask_shift v 0
  simp only [show (2 ^ 8 - 1) <<< 24 = 0xff000000 from rfl,
    show (2 ^ 8 - 1) <<< 16 = 0xff0000 from rfl,
    show (2 ^ 8 - 1) <<< 8 = 0xff00 from rfl,
    show (2 ^ 8 - 1) <<< 0 = 0xff from rfl, Nat.shiftRight_zero] at h24 h16 h8 h0
  simp only [toByte, h24, h16, h8, h0]
  omega

/-! ## Lemmas on the decoders -/

theorem readStream_declared (data : QByteArray) :
    (((data.getD 0 0).val <<< 24) ||| ((data.getD 1 0).val <<< 16)
      ||| ((data.getD 2 0).val <<< 8) ||| ((data.getD 3 0).val &&& 0xff)) % 2 ^ 32
      = declaredChecksum data :=
  or_bytes _ _ _ _ (data.getD 0 0).isLt (data.getD 1 0).isLt (data.getD 2 0).isLt
    (data.getD 3 0).isLt

theorem readStream_mismatch (qt : Qt) (p : QCCTV_StreamPacket) (data : QByteArray)
    (hlen : 4 ≤ data.length) (hne : declaredChecksum data ≠ crc32_compute (data.drop 4)) :
    QCCTV_ReadStreamPacket qt (some p) data
      = (false, some { p with crc32 := declaredChecksum data }) := by
  have h : ¬ data.length < 4 := by omega
  simp only [QCCTV_ReadStreamPacket, h, if_false, readStream_declared, bne_iff_ne, ne_eq, hne,
    not_false_eq_true, if_true]

theorem readStream_empty (qt : Qt) (p : QCCTV_StreamPacket) (data : QByteArray)
    (hlen : 4 ≤ data.length) (heq : declaredChecksum data = crc32_compute (data.drop 4))
    (hjson : (qt.fromBinaryData (data.drop 4)).isEmpty = true) :
    QCCTV_ReadStreamPacket qt (some p) data
      = (false, some { p with crc32 := declaredChecksum data }) := by
  have h : ¬ data.length < 4 := by omega
  simp only [QCCTV_ReadStreamPacket, h, if_false, readStream_declared, bne_iff_ne, ne_eq, heq,
    not_true_eq_false, hjson, if_true]

theorem readStream_parsed (qt : Qt) (p : QCCTV_StreamPacket) (data : QByteArray)
    (hlen : 4 ≤ data.length) (heq : declaredChecksum data = crc32_compute (data.drop 4))
    (hjson : (qt.fromBinaryData (data.drop 4)).isEmpty = false) :
    QCCTV_ReadStreamPacket qt (some p) data =
      (let json := qt.fromBinaryData (data.drop 4)
       let image := if (json.value "image").toString.isEmpty then p.image
         else QCCTV_DecodeImage qt (qt.fromBase64 (json.value "image").toString)
       (!image.isNull,
        some { crc32 := declaredChecksum data
               fps := (json.value KEY_FPS).toInt
               zoom := (json.value KEY_ZOOM).toInt
               supportsZoom := (json.value KEY_ZOOM_AVAIL).toBool
               cameraName := (json.value KEY_NAME).toString
               cameraGroup := (json.value KEY_GROUP).toString
               flashlightEnabled := (json.value KEY_FLASHLIGHT).toBool
               resolution := (json.value KEY_RESOLUTION).toInt
               autoRegulateResolution := (json.value KEY_AUTOREGRES).toBool
               cameraStatus := (json.value KEY_STATUS).toInt
               image := image })) := by
  have h : ¬ data.length < 4 := by omega
  simp only [QCCTV_ReadStreamPacket, h, if_false, readStream_declared, bne_iff_ne, ne_eq, heq,
    not_true_eq_false, hjson]
  by_cases hs : ((qt.fromBinaryData (data.drop 4)).value "image").toString.isEmpty = true
  · simp [hs]
  · simp [hs]

theorem createStream_eq (qt : Qt) (P : QCCTV_StreamPacket) :
    QCCTV_CreateStreamPacket qt P =
      toByte ((crc32_compute (qt.toBinaryData (streamJson qt P)) &&& 0xff000000) >>> 24)
        :: toByte ((crc32_compute (qt.toBinaryData (streamJson qt P)) &&& 0xff0000) >>> 16)
        :: toByte ((crc32_compute (qt.toBinaryData (streamJson qt P)) &&& 0xff00) >>> 8)
        :: toByte (crc32_compute (qt.toBinaryData (streamJson qt P)) &&& 0xff)
        :: qt.toBinaryData (streamJson qt P) := rfl

theorem createStream_declared (qt : Qt) (P : QCCTV_StreamPacket) :
    declaredChecksum (QCCTV_CreateStreamPacket qt P)
      = crc32_compute (qt.toBinaryData (streamJson qt P)) := by
  rw [createStream_eq]
  exact checksum_bytes _ (crc32_compute_lt _)

theorem createStream_drop (qt : Qt) (P : QCCTV_StreamPacket) :
    (QCCTV_CreateStreamPacket qt P).drop 4 = qt.toBinaryData (streamJson qt P) := rfl

theorem createStream_length (qt : Qt) (P : QCCTV_StreamPacket) :
    (QCCTV_CreateStreamPacket qt P).length = 4 + (qt.toBinaryData (streamJson qt P)).length := by
  rw [createStream_eq]
  simp only [List.length_cons]
  omega

theorem toInt_ofInt (n : Int) (h : isInt32 n) : (QJsonValue.ofInt n).toInt = n := by
  unfold isInt32 at h
  simp only [QJsonValue.ofInt, QJsonValue.toInt, h, and_self, if_true]

theorem toInt_isInt32 (v : QJsonValue) : isInt32 v.toInt := by
  unfold isInt32
  cases v with
  | double d =>
    cases d with
    | none => simp [QJsonValue.toInt]
    | some n =>
      simp only [QJsonValue.toInt]
      split <;> omega
  | _ => simp [QJsonValue.toInt]

theorem readCommand_parsed (qt : Qt) (p : QCCTV_CommandPacket) (data : QByteArray)
    (hd : data.isEmpty = false) (hj : (qt.fromBinaryData data).isEmpty = false) :
    QCCTV_ReadCommandPacket qt (some p) data =
      (let json := qt.fromBinaryData data
       (true,
        some { oldFps := (json.value KEY_OLD_FPS).toInt
               newFps := (json.value KEY_NEW_FPS).toInt
               oldZoom := (json.value KEY_OLD_ZOOM).toInt
               newZoom := (json.value KEY_NEW_ZOOM).toInt
               focusRequest := (json.value KEY_FOCUS_REQUEST).toBool
               oldResolution := (json.value KEY_OLD_RESOLUTION).toInt
               newResolution := (json.value KEY_NEW_RESOLUTION).toInt
               oldFlashlightEnabled := (json.value KEY_OLD_FLASHLIGHT).toBool
               newFlashlightEnabled := (json.value KEY_NEW_FLASHLIGHT).toBool
               oldAutoRegulateResolution := (json.value KEY_OLD_AUTOREGRES).toBool
               newAutoRegulateResolution := (json.value KEY_NEW_AUTOREGRES).toBool
               fpsChanged := (json.value KEY_OLD_FPS).toInt != (json.value KEY_NEW_FPS).toInt
               zoomChanged := (json.value KEY_OLD_ZOOM).toInt != (json.value KEY_NEW_ZOOM).toInt
               resolutionChanged :=
                 (json.value KEY_OLD_RESOLUTION).toInt != (json.value KEY_NEW_RESOLUTION).toInt
               flashlightEnabledChanged :=
                 (json.value KEY_OLD_FLASHLIGHT).toBool != (json.value KEY_NEW_FLASHLIGHT).toBool
               autoRegulateResolutionChanged :=
                 (json.value KEY_OLD_AUTOREGRES).toBool
                   != (json.value KEY_NEW_AUTOREGRES).toBool })) := by
  simp only [QCCTV_ReadCommandPacket, hd, hj, Bool.false_eq_true, if_false]

theorem readCommand_failed (qt : Qt) (p : QCCTV_CommandPacket) (data : QByteArray)
    (h : data.isEmpty = true ∨ (qt.fromBinaryData data).isEmpty = true) :
    QCCTV_ReadCommandPacket qt (some p) data = (false, some p) := by
  unfold QCCTV_ReadCommandPacket
  by_cases hd : data.isEmpty = true
  · simp only [hd, if_true]
  · have hj : (qt.fromBinaryData data).isEmpty = true := h.resolve_left hd
    simp only [hd, hj, Bool.false_eq_true, if_true, if_false]

/-- Decoding the encoding of a command, for an instance of the record format
that gives back the record it was given. -/
theorem readCommand_create (qt : Qt) (C dest : QCCTV_CommandPacket)
    (hdata : (qt.toBinaryData (commandJson C)).isEmpty = false)
    (hjson : sameObject (qt.fromBinaryData (qt.toBinaryData (commandJson C))) (commandJson C)) :
    QCCTV_ReadCommandPacket qt (some dest) (QCCTV_CreateCommandPacket qt C) =
      (true,
       some { oldFps := (QJsonValue.ofInt C.oldFps).toInt
              newFps := (QJsonValue.ofInt C.newFps).toInt
              oldZoom := (QJsonValue.ofInt C.oldZoom).toInt
              newZoom := (QJsonValue.ofInt C.newZoom).toInt
              focusRequest := C.focusRequest
              oldResolution := (QJsonValue.ofInt C.oldResolution).toInt
              newResolution := (QJsonValue.ofInt C.newResolution).toInt
              oldFlashlightEnabled := C.oldFlashlightEnabled
              newFlashlightEnabled := C.newFlashlightEnabled
              oldAutoRegulateResolution := C.oldAutoRegulateResolution
              newAutoRegulateResolution := C.newAutoRegulateResolution
              fpsChanged := (QJsonValue.ofInt C.oldFps).toInt != (QJsonValue.ofInt C.newFps).toInt
              zoomChanged :=
                (QJsonValue.ofInt C.oldZoom).toInt != (QJsonValue.ofInt C.newZoom).toInt
              resolutionChanged :=
                (QJsonValue.ofInt C.oldResolution).toInt
                  != (QJsonValue.ofInt C.newResolution).toInt
              flashlightEnabledChanged := C.oldFlashlightEnabled != C.newFlashlightEnabled
              autoRegulateResolutionChanged :=
                C.oldAutoRegulateResolution != C.newAutoRegulateResolution }) := by
  have hne : (qt.fromBinaryData (qt.toBinaryData (commandJson C))).isEmpty = false := by
    rw [hjson.1]; rfl
  have hv := hjson.2
  rw [QCCTV_CreateCommandPacket, readCommand_parsed qt dest _ hdata hne]
  simp only [hv]
  rfl

theorem sameObject_of_eq (a b : QJsonObject) (h : a = b) : sameObject a b := by
  subst h
  exact ⟨rfl, fun _ => rfl⟩

/-! ## Stream packets -/

theorem getResolution_original : QCCTV_GetResolution QCCTV_Original = ⟨0, 0⟩ := by decide

/-- At tier Original the encoder produces no bytes, whatever the image and the
Qt instance: the frame is scaled to the empty size `0x0`. -/
theorem encodeImage_original (qt : Qt) (image : QImage) :
    QCCTV_EncodeImage qt image QCCTV_Original = [] := by
  have hs : QImage.scaled qt image (QCCTV_GetResolution QCCTV_Original) = QImage.null := by
    rw [getResolution_original]
    unfold QImage.scaled
    split
    · rfl
    · rfl
  simp only [QCCTV_EncodeImage, hs]
  rfl

theorem streamJson_image_absent (qt : Qt) (P : QCCTV_StreamPacket)
    (h : QCCTV_EncodeImage qt P.image P.resolution = []) :
    (streamJson qt P).value "image" = QJsonValue.undefined := by
  unfold streamJson
  simp only [h]
  rfl

theorem streamJson_nonempty (qt : Qt) (P : QCCTV_StreamPacket) :
    (streamJson qt P).isEmpty = false := by
  simp only [streamJson]
  split <;> rfl

/-- The values a stream record holds when the encoder embedded an image. -/
theorem streamJson_values (qt : Qt) (P : QCCTV_StreamPacket)
    (h : QCCTV_EncodeImage qt P.image P.resolution ≠ []) :
    (streamJson qt P).value KEY_FPS = QJsonValue.ofInt P.fps
    ∧ (streamJson qt P).value KEY_ZOOM = QJsonValue.ofInt P.zoom
    ∧ (streamJson qt P).value KEY_NAME = QJsonValue.string P.cameraName
    ∧ (streamJson qt P).value KEY_GROUP = QJsonValue.string P.cameraGroup
    ∧ (streamJson qt P).value KEY_STATUS = QJsonValue.ofInt P.cameraStatus
    ∧ (streamJson qt P).value KEY_RESOLUTION = QJsonValue.ofInt P.resolution
    ∧ (streamJson qt P).value KEY_ZOOM_AVAIL = QJsonValue.bool P.supportsZoom
    ∧ (streamJson qt P).value KEY_FLASHLIGHT = QJsonValue.bool P.flashlightEnabled
    ∧ (streamJson qt P).value KEY_AUTOREGRES = QJsonValue.bool P.autoRegulateResolution
    ∧ (streamJson qt P).value "image"
        = QJsonValue.string (qt.toBase64 (QCCTV_EncodeImage qt P.image P.resolution)) := by
  have hb : (!(QCCTV_EncodeImage qt P.image P.resolution).isEmpty) = true := by
    cases hh : QCCTV_EncodeImage qt P.image P.resolution with
    | nil => exact absurd hh h
    | cons a b => rfl
  unfold streamJson
  simp only [hb]
  exact ⟨rfl, rfl, rfl, rfl, rfl, rfl, rfl, rfl, rfl, rfl⟩

/-- Round trip of a stream packet whose frame the encoder did embed: every
field comes back, and the call reports whether the embedded frame decodes. -/
theorem stream_roundtrip_embedded (qt : Qt) (P dest : QCCTV_StreamPacket)
    (hfps : isInt32 P.fps) (hzoom : isInt32 P.zoom) (hstatus : isInt32 P.cameraStatus)
    (hres : isInt32 P.resolution)
    (hjson : sameObject (qt.fromBinaryData (qt.toBinaryData (streamJson qt P)))
      (streamJson qt P))
    (himg : QCCTV_EncodeImage qt P.image P.resolution ≠ [])
    (htext : (qt.toBase64 (QCCTV_EncodeImage qt P.image P.resolution)).isEmpty = false) :
    QCCTV_ReadStreamPacket qt (some dest) (QCCTV_CreateStreamPacket qt P) =
      (let image := QCCTV_DecodeImage qt
          (qt.fromBase64 (qt.toBase64 (QCCTV_EncodeImage qt P.image P.resolution)))
       (!image.isNull,
        some { P with
          crc32 := crc32_compute (qt.toBinaryData (streamJson qt P))
          image := image })) := by
  have hne : (qt.fromBinaryData ((QCCTV_CreateStreamPacket qt P).drop 4)).isEmpty = false := by
    rw [createStream_drop, hjson.1, streamJson_nonempty]
  have hlen : 4 ≤ (QCCTV_CreateStreamPacket qt P).length := by
    rw [createStream_length]; omega
  have hcrc : declaredChecksum (QCCTV_CreateStreamPacket qt P)
      = crc32_compute ((QCCTV_CreateStreamPacket qt P).drop 4) := by
    rw [createStream_declared, createStream_drop]
  obtain ⟨v1, v2, v3, v4, v5, v6, v7, v8, v9, v10⟩ := streamJson_values qt P himg
  rw [readStream_parsed qt dest _ hlen hcrc hne, createStream_drop, createStream_declared]
  simp only [hjson.2, v1, v2, v3, v4, v5, v6, v7, v8, v9, v10, toInt_ofInt _ hfps,
    toInt_ofInt _ hzoom, toInt_ofInt _ hstatus, toInt_ofInt _ hres, QJsonValue.toString,
    QJsonValue.toBool, htext, Bool.false_eq_true, if_false]

/-- The round trip of the sample report at tier QCIF on the concrete instance. -/
theorem stream_roundtrip_embedded_sample :
    QCCTV_ReadStreamPacket Demo.qt (some blankStream)
        (QCCTV_CreateStreamPacket Demo.qt sampleStream) =
      (true,
       some { sampleStream with
         crc32 := crc32_compute (Demo.qt.toBinaryData (streamJson Demo.qt sampleStream))
         image := ⟨176, 144, [1, 2, 3, 4]⟩ }) :=
  stream_roundtrip_embedded Demo.qt sampleStream blankStream (by decide) (by decide)
    (by decide) (by decide) (sameObject_of_eq _ _ (by decide)) (by decide) (by decide)

/-- Decoding the encoding of a packet at tier Original into a packet that holds
no image fails, for every instance of the record format that gives back the
record it was given. -/
theorem stream_roundtrip_original (qt : Qt) (P dest : QCCTV_StreamPacket)
    (hres : P.resolution = QCCTV_Original) (hdest : dest.image.isNull = true)
    (hjson : sameObject (qt.fromBinaryData (qt.toBinaryData (streamJson qt P)))
      (streamJson qt P)) :
    (QCCTV_ReadStreamPacket qt (some dest) (QCCTV_CreateStreamPacket qt P)).1 = false := by
  have hne : (qt.fromBinaryData ((QCCTV_CreateStreamPacket qt P).drop 4)).isEmpty = false := by
    rw [createStream_drop, hjson.1, streamJson_nonempty]
  have hlen : 4 ≤ (QCCTV_CreateStreamPacket qt P).length := by
    rw [createStream_length]; omega
  have hcrc : declaredChecksum (QCCTV_CreateStreamPacket qt P)
      = crc32_compute ((QCCTV_CreateStreamPacket qt P).drop 4) := by
    rw [createStream_declared, createStream_drop]
  have himg : (streamJson qt P).value "image" = QJsonValue.undefined :=
    streamJson_image_absent qt P (by rw [hres]; exact encodeImage_original qt P.image)
  rw [readStream_parsed qt dest _ hlen hcrc hne, createStream_drop]
  have he : ("" : String).isEmpty = true := rfl
  simp only [hjson.2, himg, QJsonValue.toString, he, if_true, hdest, Bool.not_true]

/-- Claim C1, at a failing input: a camera report at tier Original holds a
valid 2x2 frame, yet the encoder gets no bytes for the frame and leaves the
`image` entry out of the record, and decoding the encoded packet into a packet
that holds no image returns `false`; the round trip the claim promises does not
take place. -/
theorem stream_roundtrip_fails_at_original :
    originalStream.image.isNull = false
    ∧ QCCTV_EncodeImage Demo.qt originalStream.image originalStream.resolution = []
    ∧ (streamJson Demo.qt originalStream).value "image" = QJsonValue.undefined
    ∧ (QCCTV_ReadStreamPacket Demo.qt (some blankStream)
        (QCCTV_CreateStreamPacket Demo.qt originalStream)).1 = false := by
  decide

/-- Claim C2: the output of `QCCTV_CreateStreamPacket` is four bytes followed
by the serialized record; the four bytes are the CRC-32 of the record, most
significant byte first; the value the decoder reassembles from the four bytes
the encoder makes of a 32-bit value `v` is `v`; and after decoding an encoder
output the checksum stored in the packet equals the checksum computed over the
bytes behind the header, so the comparison passes. -/
theorem stream_checksum_layout (qt : Qt) (P dest : QCCTV_StreamPacket) (v : Nat) :
    (∃ b0 b1 b2 b3 : Fin 256,
      QCCTV_CreateStreamPacket qt P = b0 :: b1 :: b2 :: b3 :: qt.toBinaryData (streamJson qt P)
      ∧ b0.val * 2 ^ 24 + b1.val * 2 ^ 16 + b2.val * 2 ^ 8 + b3.val
          = crc32_compute (qt.toBinaryData (streamJson qt P)))
    ∧ crc32_compute (qt.toBinaryData (streamJson qt P)) < 2 ^ 32
    ∧ (((toByte (((v % 2 ^ 32) &&& 0xff000000) >>> 24)).val <<< 24)
        ||| ((toByte (((v % 2 ^ 32) &&& 0xff0000) >>> 16)).val <<< 16)
        ||| ((toByte (((v % 2 ^ 32) &&& 0xff00) >>> 8)).val <<< 8)
        ||| ((toByte ((v % 2 ^ 32) &&& 0xff)).val &&& 0xff)) % 2 ^ 32 = v % 2 ^ 32
    ∧ declaredChecksum (QCCTV_CreateStreamPacket qt P)
        = crc32_compute ((QCCTV_CreateStreamPacket qt P).drop 4)
    ∧ (∃ p, (QCCTV_ReadStreamPacket qt (some dest) (QCCTV_CreateStreamPacket qt P)).2 = some p
        ∧ p.crc32 = crc32_compute ((QCCTV_CreateStreamPacket qt P).drop 4)) := by
  have hlen : 4 ≤ (QCCTV_CreateStreamPacket qt P).length := by
    rw [createStream_length]; omega
  have hcrc : declaredChecksum (QCCTV_CreateStreamPacket qt P)
      = crc32_compute ((QCCTV_CreateStreamPacket qt P).drop 4) := by
    rw [createStream_declared, createStream_drop]
  refine ⟨⟨_, _, _, _, createStream_eq qt P, checksum_bytes _ (crc32_compute_lt _)⟩,
    crc32_compute_lt _, ?_, hcrc, ?_⟩
  · rw [or_bytes _ _ _ _ (Fin.isLt _) (Fin.isLt _) (Fin.isLt _) (Fin.isLt _)]
    exact checksum_bytes _ (Nat.mod_lt _ (by decide))
  · by_cases hj : (qt.fromBinaryData ((QCCTV_CreateStreamPacket qt P).drop 4)).isEmpty = true
    · rw [readStream_empty qt dest _ hlen hcrc hj]
      exact ⟨_, rfl, hcrc⟩
    · rw [readStream_parsed qt dest _ hlen hcrc (by simpa using hj)]
      exact ⟨_, rfl, hcrc⟩

/-- Claim C3: on an input of at least four bytes whose first four bytes, read
as a big-endian 32-bit value, differ from the CRC-32 of the remaining bytes,
`QCCTV_ReadStreamPacket` returns `false` and the packet is the one from before
the call with only its stored checksum replaced by the declared one. -/
theorem stream_checksum_mismatch (qt : Qt) (p : QCCTV_StreamPacket) (data : QByteArray)
    (hlen : 4 ≤ data.length)
    (hne : declaredChecksum data ≠ crc32_compute (data.drop 4)) :
    QCCTV_ReadStreamPacket qt (some p) data
      = (false, some { p with crc32 := declaredChecksum data }) :=
  readStream_mismatch qt p data hlen hne

theorem stream_checksum_mismatch_witness :
    4 ≤ ([0, 0, 0, 1, 113] : QByteArray).length
    ∧ declaredChecksum [0, 0, 0, 1, 113] ≠ crc32_compute (List.drop 4 [0, 0, 0, 1, 113])
    ∧ QCCTV_ReadStreamPacket Demo.qt (some sampleStream) [0, 0, 0, 1, 113]
        = (false, some { sampleStream with crc32 := declaredChecksum [0, 0, 0, 1, 113] }) :=
  ⟨by decide, by decide,
    stream_checksum_mismatch Demo.qt sampleStream [0, 0, 0, 1, 113] (by decide) (by decide)⟩

theorem flipBit_byte_ne (b : Fin 256) (i : Nat) (hi : i < 8) :
    (toByte (b.val ^^^ 2 ^ i)).val ≠ b.val := by
  have hp : 2 ^ i < 2 ^ 8 := Nat.pow_lt_pow_right (by decide) hi
  have hlt : b.val ^^^ 2 ^ i < 2 ^ 8 := Nat.xor_lt_two_pow b.isLt hp
  have hv : (toByte (b.val ^^^ 2 ^ i)).val = b.val ^^^ 2 ^ i := Nat.mod_eq_of_lt hlt
  rw [hv]
  intro h
  have h0 : b.val ^^^ 2 ^ i = b.val ^^^ 0 := by rw [h, Nat.xor_zero]
  have h1 : 2 ^ i = 0 := Nat.xor_right_injective h0
  have h2 : 0 < 2 ^ i := Nat.pos_pow_of_pos i (by decide)
  omega

theorem crcFold_flipBit (data : QByteArray) (s i : Nat) (hs : s < 2 ^ 32)
    (hi : i < 8 * data.length) :
    (flipBit data i).foldl crcUpdate s ≠ data.foldl crcUpdate s := by
  induction data generalizing s i with
  | nil => simp at hi
  | cons b rest ih =>
    unfold flipBit
    by_cases h8 : i < 8
    · rw [if_pos h8]
      simp only [List.foldl_cons]
      refine crcFold_ne rest _ _ (crcUpdate_lt _ _ hs) (crcUpdate_lt _ _ hs) ?_
      intro e
      exact flipBit_byte_ne b i h8 (Nat.xor_right_injective (crcUpdate_inj s s _ _ hs hs e))
    · rw [if_neg h8]
      simp only [List.foldl_cons]
      refine ih _ _ (crcUpdate_lt _ _ hs) ?_
      simp only [List.length_cons] at hi
      omega

theorem crc32_flipBit (data : QByteArray) (i : Nat) (hi : i < 8 * data.length) :
    crc32_compute (flipBit data i) ≠ crc32_compute data := by
  unfold crc32_compute
  intro h
  exact crcFold_flipBit data _ i (by decide) hi (Nat.xor_left_injective h)

theorem crc32_bitwise (data : QByteArray) :
    crc32_compute data
      = (data.foldl (fun s b => crcBit^[8] (s ^^^ b.val)) 0xFFFFFFFF) ^^^ 0xFFFFFFFF := by
  have h : crcUpdate = fun s (b : Fin 256) => crcBit^[8] (s ^^^ b.val) := by
    funext s b
    exact crcUpdate_eq s b
  rw [crc32_compute, h]

/-- Claim C4: the checksum of the codec is the reflected CRC-32 (polynomial
`0xEDB88320`, initial value `0xFFFFFFFF`, final complement), and inverting any
single bit of the serialized-record portion of an encoded stream packet gives a
buffer whose declared checksum differs from the CRC-32 of the remaining bytes,
on which `QCCTV_ReadStreamPacket` returns `false`. -/
theorem stream_bit_flip_rejected (qt : Qt) (P p : QCCTV_StreamPacket) (i : Nat)
    (hi : i < 8 * (qt.toBinaryData (streamJson qt P)).length) :
    (∀ data : QByteArray, crc32_compute data
      = (data.foldl (fun s b => crcBit^[8] (s ^^^ b.val)) 0xFFFFFFFF) ^^^ 0xFFFFFFFF)
    ∧ declaredChecksum ((QCCTV_CreateStreamPacket qt P).take 4
          ++ flipBit ((QCCTV_CreateStreamPacket qt P).drop 4) i)
        ≠ crc32_compute (((QCCTV_CreateStreamPacket qt P).take 4
          ++ flipBit ((QCCTV_CreateStreamPacket qt P).drop 4) i).drop 4)
    ∧ (QCCTV_ReadStreamPacket qt (some p) ((QCCTV_CreateStreamPacket qt P).take 4
          ++ flipBit ((QCCTV_CreateStreamPacket qt P).drop 4) i)).1 = false := by
  have hd : declaredChecksum ((QCCTV_CreateStreamPacket qt P).take 4
        ++ flipBit ((QCCTV_CreateStreamPacket qt P).drop 4) i)
      = crc32_compute (qt.toBinaryData (streamJson qt P)) := by
    rw [← createStream_declared, createStream_eq]
    rfl
  have hr : ((QCCTV_CreateStreamPacket qt P).take 4
        ++ flipBit ((QCCTV_CreateStreamPacket qt P).drop 4) i).drop 4
      = flipBit (qt.toBinaryData (streamJson qt P)) i := by
    rw [createStream_eq]
    rfl
  have hlen : 4 ≤ ((QCCTV_CreateStreamPacket qt P).take 4
        ++ flipBit ((QCCTV_CreateStreamPacket qt P).drop 4) i).length := by
    rw [createStream_eq]
    simp
  have hne : declaredChecksum ((QCCTV_CreateStreamPacket qt P).take 4
        ++ flipBit ((QCCTV_CreateStreamPacket qt P).drop 4) i)
      ≠ crc32_compute (((QCCTV_CreateStreamPacket qt P).take 4
        ++ flipBit ((QCCTV_CreateStreamPacket qt P).drop 4) i).drop 4) := by
    rw [hd, hr]
    exact fun h => crc32_flipBit _ i hi h.symm
  refine ⟨crc32_bitwise, hne, ?_⟩
  rw [readStream_mismatch qt p _ hlen hne]

theorem stream_bit_flip_rejected_witness :
    13 < 8 * (Demo.qt.toBinaryData (streamJson Demo.qt sampleStream)).length
    ∧ (QCCTV_ReadStreamPacket Demo.qt (some blankStream)
        ((QCCTV_CreateStreamPacket Demo.qt sampleStream).take 4
          ++ flipBit ((QCCTV_CreateStreamPacket Demo.qt sampleStream).drop 4) 13)).1 = false :=
  ⟨by decide, (stream_bit_flip_rejected Demo.qt sampleStream blankStream 13 (by decide)).2.2⟩

/-- Claim C5: on a buffer of fewer than four bytes `QCCTV_ReadStreamPacket`
returns `false` and leaves every field of the packet, the stored checksum
included, as it was (so the outcome does not depend on any byte of the buffer);
with a null packet pointer it returns `false` on every buffer. -/
theorem stream_truncation (qt : Qt) (p : QCCTV_StreamPacket) (data other : QByteArray)
    (h : data.length < 4) :
    QCCTV_ReadStreamPacket qt (some p) data = (false, some p)
    ∧ QCCTV_ReadStreamPacket qt none other = (false, none) := by
  constructor
  · simp only [QCCTV_ReadStreamPacket, h, if_true]
  · rfl

theorem stream_truncation_witness :
    ([16, 177, 46] : QByteArray).length < 4
    ∧ QCCTV_ReadStreamPacket Demo.qt (some sampleStream) [16, 177, 46]
        = (false, some sampleStream)
    ∧ QCCTV_ReadStreamPacket Demo.qt none recordWithoutImage = (false, none) :=
  ⟨by decide,
    stream_truncation Demo.qt sampleStream [16, 177, 46] recordWithoutImage (by decide)⟩

/-- Claim C6 fails as stated: the checksum of this input matches, its record
parses to a non-empty object and has no `image` entry, and yet decoding it into
a packet set up by `QCCTV_InitStream`, which holds the placeholder image,
returns `true`. -/
theorem stream_missing_image_accepted :
    declaredChecksum recordWithoutImage = crc32_compute (recordWithoutImage.drop 4)
    ∧ (Demo.qt.fromBinaryData (recordWithoutImage.drop 4)).isEmpty = false
    ∧ (Demo.qt.fromBinaryData (recordWithoutImage.drop 4)).value "image"
        = QJsonValue.undefined
    ∧ (QCCTV_ReadStreamPacket Demo.qt (QCCTV_InitStream Demo.qt (some blankStream))
        recordWithoutImage).1 = true := by
  decide

/-- Claim C6, amended: on an input whose checksum matches and whose record
parses to a non-empty object, an `image` entry that is absent, not a text or
empty leaves the image of the packet as it was, and the call returns `true`
exactly when that image is valid; a non-empty `image` entry that does not
decode to a valid image makes the call return `false` whatever image the
packet held before. -/
theorem stream_image_decides (qt : Qt) (p : QCCTV_StreamPacket) (data : QByteArray)
    (hlen : 4 ≤ data.length)
    (hcrc : declaredChecksum data = crc32_compute (data.drop 4))
    (hjson : (qt.fromBinaryData (data.drop 4)).isEmpty = false) :
    (((qt.fromBinaryData (data.drop 4)).value "image").toString.isEmpty = true →
      (QCCTV_ReadStreamPacket qt (some p) data).1 = !p.image.isNull
      ∧ (QCCTV_ReadStreamPacket qt (some p) data).2.map (fun q => q.image) = some p.image)
    ∧ (((qt.fromBinaryData (data.drop 4)).value "image").toString.isEmpty = false →
      (QCCTV_DecodeImage qt
        (qt.fromBase64 ((qt.fromBinaryData (data.drop 4)).value "image").toString)).isNull
        = true →
      (QCCTV_ReadStreamPacket qt (some p) data).1 = false)
    ∧ ((qt.fromBinaryData (data.drop 4)).value "image" = QJsonValue.undefined →
      ((qt.fromBinaryData (data.drop 4)).value "image").toString.isEmpty = true) := by
  rw [readStream_parsed qt p data hlen hcrc hjson]
  refine ⟨?_, ?_, ?_⟩
  · intro hs
    simp only [hs, if_true, Option.map_some']
    exact ⟨trivial, trivial⟩
  · intro hs hd
    simp only [hs, Bool.false_eq_true, if_false, hd, Bool.not_true]
  · intro hu
    rw [hu]
    rfl

theorem stream_image_decides_witness :
    4 ≤ recordWithoutImage.length
    ∧ declaredChecksum recordWithoutImage = crc32_compute (recordWithoutImage.drop 4)
    ∧ (Demo.qt.fromBinaryData (recordWithoutImage.drop 4)).isEmpty = false
    ∧ (QCCTV_ReadStreamPacket Demo.qt (some blankStream) recordWithoutImage).1
        = !blankStream.image.isNull :=
  ⟨by decide, by decide, by decide,
    ((stream_image_decides Demo.qt blankStream recordWithoutImage (by decide) (by decide)
      (by decide)).1 (by decide)).1⟩

/-! ## Command packets -/

theorem readCommand_success (qt : Qt) (p p' : QCCTV_CommandPacket) (data : QByteArray)
    (h : QCCTV_ReadCommandPacket qt (some p) data = (true, some p')) :
    data.isEmpty = false ∧ (qt.fromBinaryData data).isEmpty = false := by
  by_cases hd : data.isEmpty = true
  · rw [readCommand_failed qt p data (Or.inl hd)] at h
    simp at h
  · by_cases hj : (qt.fromBinaryData data).isEmpty = true
    · rw [readCommand_failed qt p data (Or.inr hj)] at h
      simp at h
    · exact ⟨by simpa using hd, by simpa using hj⟩

/-- Claim C7: after a successful `QCCTV_ReadCommandPacket` each changed flag is
`old != new` of its own pair of decoded values, and the decoded packet is the
same whatever packet (hence whatever flags) was passed in; and decoding the
encoding of a command with `oldFps = 18`, `newFps = 24` and every other old
value equal to its new value succeeds with `fpsChanged = true` and the four
other flags `false`. -/
theorem command_change_detection (qt : Qt) (p q p' C dest : QCCTV_CommandPacket)
    (data : QByteArray)
    (h : QCCTV_ReadCommandPacket qt (some p) data = (true, some p'))
    (hfps : C.oldFps = 18 ∧ C.newFps = 24)
    (hzoom : C.oldZoom = C.newZoom)
    (hres : C.oldResolution = C.newResolution)
    (hflash : C.oldFlashlightEnabled = C.newFlashlightEnabled)
    (hauto : C.oldAutoRegulateResolution = C.newAutoRegulateResolution)
    (hdata : (qt.toBinaryData (commandJson C)).isEmpty = false)
    (hjson : sameObject (qt.fromBinaryData (qt.toBinaryData (commandJson C)))
      (commandJson C)) :
    (p'.fpsChanged = (p'.oldFps != p'.newFps)
      ∧ p'.zoomChanged = (p'.oldZoom != p'.newZoom)
      ∧ p'.resolutionChanged = (p'.oldResolution != p'.newResolution)
      ∧ p'.flashlightEnabledChanged = (p'.oldFlashlightEnabled != p'.newFlashlightEnabled)
      ∧ p'.autoRegulateResolutionChanged
          = (p'.oldAutoRegulateResolution != p'.newAutoRegulateResolution))
    ∧ QCCTV_ReadCommandPacket qt (some q) data = (true, some p')
    ∧ (∃ r, QCCTV_ReadCommandPacket qt (some dest) (QCCTV_CreateCommandPacket qt C)
          = (true, some r)
        ∧ r.fpsChanged = true ∧ r.zoomChanged = false ∧ r.resolutionChanged = false
        ∧ r.flashlightEnabledChanged = false ∧ r.autoRegulateResolutionChanged = false) := by
  obtain ⟨hd, hj⟩ := readCommand_success qt p p' data h
  have hp := h
  rw [readCommand_parsed qt p data hd hj] at hp
  have hp' : _ = p' := Option.some.inj (congrArg Prod.snd hp)
  refine ⟨?_, ?_, ?_⟩
  · subst hp'
    exact ⟨rfl, rfl, rfl, rfl, rfl⟩
  · rw [readCommand_parsed qt q data hd hj]
    exact hp
  · refine ⟨_, readCommand_create qt C dest hdata hjson, ?_⟩
    simp only [hfps.1, hfps.2, hzoom, hres, hflash, hauto, bne_self_eq_false]
    exact ⟨by decide, trivial, trivial, trivial, trivial⟩

theorem command_change_detection_witness :
    ∃ r, QCCTV_ReadCommandPacket Demo.qt (some blankCommand)
          (QCCTV_CreateCommandPacket Demo.qt sampleCommand) = (true, some r)
      ∧ r.fpsChanged = true ∧ r.zoomChanged = false ∧ r.resolutionChanged = false
      ∧ r.flashlightEnabledChanged = false ∧ r.autoRegulateResolutionChanged = false :=
  (command_change_detection Demo.qt sampleCommand blankCommand
    { sampleCommand with
      fpsChanged := true
      zoomChanged := false
      resolutionChanged := false
      flashlightEnabledChanged := false
      autoRegulateResolutionChanged := false }
    sampleCommand blankCommand (QCCTV_CreateCommandPacket Demo.qt sampleCommand)
    (by decide) (by decide) (by decide) (by decide) (by decide) (by decide) (by decide)
    (sameObject_of_eq _ _ (by decide))).2.2

/-- Claim C8: for a command packet whose old and new frame rate, zoom and
resolution are 32-bit integers, `QCCTV_ReadCommandPacket` applied to the output
of `QCCTV_CreateCommandPacket` returns `true` and the decoded packet has all
ten old/new fields and `focusRequest` equal to those of the command (its
changed flags being recomputed from them). -/
theorem command_roundtrip (qt : Qt) (C dest : QCCTV_CommandPacket)
    (hofps : isInt32 C.oldFps) (hnfps : isInt32 C.newFps)
    (hozoom : isInt32 C.oldZoom) (hnzoom : isInt32 C.newZoom)
    (hores : isInt32 C.oldResolution) (hnres : isInt32 C.newResolution)
    (hdata : (qt.toBinaryData (commandJson C)).isEmpty = false)
    (hjson : sameObject (qt.fromBinaryData (qt.toBinaryData (commandJson C)))
      (commandJson C)) :
    QCCTV_ReadCommandPacket qt (some dest) (QCCTV_CreateCommandPacket qt C) =
      (true,
       some { C with
         fpsChanged := C.oldFps != C.newFps
         zoomChanged := C.oldZoom != C.newZoom
         resolutionChanged := C.oldResolution != C.newResolution
         flashlightEnabledChanged := C.oldFlashlightEnabled != C.newFlashlightEnabled
         autoRegulateResolutionChanged :=
           C.oldAutoRegulateResolution != C.newAutoRegulateResolution }) := by
  rw [readCommand_create qt C dest hdata hjson, toInt_ofInt _ hofps, toInt_ofInt _ hnfps,
    toInt_ofInt _ hozoom, toInt_ofInt _ hnzoom, toInt_ofInt _ hores, toInt_ofInt _ hnres]

theorem command_roundtrip_witness :
    (Demo.qt.toBinaryData (commandJson wildCommand)).isEmpty = false
    ∧ Demo.qt.fromBinaryData (Demo.qt.toBinaryData (commandJson wildCommand))
        = commandJson wildCommand
    ∧ QCCTV_ReadCommandPacket Demo.qt (some blankCommand)
          (QCCTV_CreateCommandPacket Demo.qt wildCommand) =
        (true,
         some { wildCommand with
           fpsChanged := true
           zoomChanged := true
           resolutionChanged := true
           flashlightEnabledChanged := true
           autoRegulateResolutionChanged := true }) :=
  ⟨by decide, by decide,
    command_roundtrip Demo.qt wildCommand blankCommand (by decide) (by decide) (by decide)
      (by decide) (by decide) (by decide) (by decide) (sameObject_of_eq _ _ (by decide))⟩

/-- Claim C9: with a non-null packet, `QCCTV_ReadCommandPacket` returns `false`
exactly when the input buffer is empty or parses to an empty record; when it
succeeds, the stored frame rate, zoom and resolution values are the integers
the record holds, and a record entry holding any 32-bit integer, in a camera's
range or not, is read back as that very integer, without clamping. -/
theorem command_decode_failure (qt : Qt) (p : QCCTV_CommandPacket) (data : QByteArray) :
    ((QCCTV_ReadCommandPacket qt (some p) data).1 = false
      ↔ (data = [] ∨ (qt.fromBinaryData data).isEmpty = true))
    ∧ ((QCCTV_ReadCommandPacket qt (some p) data).1 = true →
        ∃ r, (QCCTV_ReadCommandPacket qt (some p) data).2 = some r
          ∧ r.oldFps = ((qt.fromBinaryData data).value KEY_OLD_FPS).toInt
          ∧ r.newFps = ((qt.fromBinaryData data).value KEY_NEW_FPS).toInt
          ∧ r.oldZoom = ((qt.fromBinaryData data).value KEY_OLD_ZOOM).toInt
          ∧ r.newZoom = ((qt.fromBinaryData data).value KEY_NEW_ZOOM).toInt
          ∧ r.oldResolution = ((qt.fromBinaryData data).value KEY_OLD_RESOLUTION).toInt
          ∧ r.newResolution = ((qt.fromBinaryData data).value KEY_NEW_RESOLUTION).toInt)
    ∧ (∀ n : Int, isInt32 n → (QJsonValue.ofInt n).toInt = n) := by
  by_cases hd : data.isEmpty = true
  · have hnil : data = [] := List.isEmpty_iff.mp hd
    rw [readCommand_failed qt p data (Or.inl hd)]
    exact ⟨⟨fun _ => Or.inl hnil, fun _ => rfl⟩, fun h => Bool.noConfusion h, toInt_ofInt⟩
  · by_cases hj : (qt.fromBinaryData data).isEmpty = true
    · rw [readCommand_failed qt p data (Or.inr hj)]
      exact ⟨⟨fun _ => Or.inr hj, fun _ => rfl⟩, fun h => Bool.noConfusion h, toInt_ofInt⟩
    · have hd' : data.isEmpty = false := by simpa using hd
      have hj' : (qt.fromBinaryData data).isEmpty = false := by simpa using hj
      have hnil : data ≠ [] := fun e => hd (List.isEmpty_iff.mpr e)
      rw [readCommand_parsed qt p data hd' hj']
      refine ⟨⟨fun h => Bool.noConfusion h, fun h => ?_⟩, fun _ => ?_, toInt_ofInt⟩
      · rcases h with h | h
        · exact absurd h hnil
        · exact absurd h hj
      · exact ⟨_, rfl, rfl, rfl, rfl, rfl, rfl, rfl⟩

/-- A key has a value in an object none of whose entries is undefined exactly
when it is one of the keys of the object. -/
theorem value_defined_iff (o : QJsonObject)
    (h : ∀ e ∈ o, e.2 ≠ QJsonValue.undefined) (key : String) :
    o.value key ≠ QJsonValue.undefined ↔ key ∈ o.keys := by
  induction o with
  | nil => simp [QJsonObject.value, QJsonObject.keys]
  | cons e rest ih =>
    have hrest : ∀ x ∈ rest, x.2 ≠ QJsonValue.undefined :=
      fun x hx => h x (List.mem_cons_of_mem _ hx)
    have he : e.2 ≠ QJsonValue.undefined := h e (List.mem_cons_self _ _)
    have ih' := ih hrest
    unfold QJsonObject.value QJsonObject.keys at ih' ⊢
    by_cases hk : e.1 = key
    · subst hk
      simp only [List.find?_cons, beq_self_eq_true, List.map_cons, List.mem_cons, true_or,
        iff_true]
      exact he
    · have hk' : (e.1 == key) = false := by simpa using hk
      have hk2 : ¬ key = e.1 := fun x => hk x.symm
      simp only [List.find?_cons, hk', List.map_cons, List.mem_cons, hk2, false_or]
      exact ih'

theorem commandJson_defined (C : QCCTV_CommandPacket) :
    ∀ e ∈ commandJson C, e.2 ≠ QJsonValue.undefined := by
  have h : commandJson C =
      [(KEY_NEW_AUTOREGRES, QJsonValue.bool C.newAutoRegulateResolution),
       (KEY_OLD_AUTOREGRES, QJsonValue.bool C.oldAutoRegulateResolution),
       (KEY_NEW_FLASHLIGHT, QJsonValue.bool C.newFlashlightEnabled),
       (KEY_OLD_FLASHLIGHT, QJsonValue.bool C.oldFlashlightEnabled),
       (KEY_NEW_RESOLUTION, QJsonValue.ofInt C.newResolution),
       (KEY_OLD_RESOLUTION, QJsonValue.ofInt C.oldResolution),
       (KEY_FOCUS_REQUEST, QJsonValue.bool C.focusRequest),
       (KEY_NEW_ZOOM, QJsonValue.ofInt C.newZoom),
       (KEY_OLD_ZOOM, QJsonValue.ofInt C.oldZoom),
       (KEY_NEW_FPS, QJsonValue.ofInt C.newFps),
       (KEY_OLD_FPS, QJsonValue.ofInt C.oldFps)] := rfl
  rw [h]
  intro e he
  simp only [List.mem_cons, List.mem_singleton, List.not_mem_nil, or_false] at he
  rcases he with h | h | h | h | h | h | h | h | h | h | h <;> rw [h] <;>
    simp [QJsonValue.ofInt]

theorem commandJson_key_iff (C : QCCTV_CommandPacket) (key : String) :
    (commandJson C).value key ≠ QJsonValue.undefined ↔ key ∈ commandKeys := by
  rw [value_defined_iff _ (commandJson_defined C)]
  have hk : (commandJson C).keys = commandKeys.reverse := rfl
  rw [hk, List.mem_reverse]

/-- Claim C10: the bytes `QCCTV_CreateCommandPacket` produces are the same for
any two command packets that agree on the ten old/new fields and on
`focusRequest`, whatever their five changed flags; what the encoder serializes
is the record whose keys are exactly the eleven keys `o_fps`, `n_fps`,
`o_zoom`, `n_zoom`, `focus`, `o_res`, `n_res`, `o_flashlight`, `n_flashlight`,
`o_autoRegulateResolution`, `n_autoRegulateResolution`, each once, each holding
the field of its name; and when the output parses back to the record that was
serialized, the keys with a value in the parsed output are those eleven. -/
theorem command_flags_not_transmitted (qt : Qt) (C C' : QCCTV_CommandPacket)
    (hofps : C.oldFps = C'.oldFps) (hnfps : C.newFps = C'.newFps)
    (hozoom : C.oldZoom = C'.oldZoom) (hnzoom : C.newZoom = C'.newZoom)
    (hfocus : C.focusRequest = C'.focusRequest)
    (hores : C.oldResolution = C'.oldResolution) (hnres : C.newResolution = C'.newResolution)
    (hoflash : C.oldFlashlightEnabled = C'.oldFlashlightEnabled)
    (hnflash : C.newFlashlightEnabled = C'.newFlashlightEnabled)
    (hoauto : C.oldAutoRegulateResolution = C'.oldAutoRegulateResolution)
    (hnauto : C.newAutoRegulateResolution = C'.newAutoRegulateResolution) :
    QCCTV_CreateCommandPacket qt C = QCCTV_CreateCommandPacket qt C'
    ∧ (commandJson C).keys.Perm commandKeys
    ∧ commandKeys.Nodup ∧ commandKeys.length = 11
    ∧ QCCTV_CreateCommandPacket qt C = qt.toBinaryData (commandJson C)
    ∧ ((commandJson C).value "o_fps" = QJsonValue.ofInt C.oldFps
      ∧ (commandJson C).value "n_fps" = QJsonValue.ofInt C.newFps
      ∧ (commandJson C).value "o_zoom" = QJsonValue.ofInt C.oldZoom
      ∧ (commandJson C).value "n_zoom" = QJsonValue.ofInt C.newZoom
      ∧ (commandJson C).value "focus" = QJsonValue.bool C.focusRequest
      ∧ (commandJson C).value "o_res" = QJsonValue.ofInt C.oldResolution
      ∧ (commandJson C).value "n_res" = QJsonValue.ofInt C.newResolution
      ∧ (commandJson C).value "o_flashlight" = QJsonValue.bool C.oldFlashlightEnabled
      ∧ (commandJson C).value "n_flashlight" = QJsonValue.bool C.newFlashlightEnabled
      ∧ (commandJson C).value "o_autoRegulateResolution"
          = QJsonValue.bool C.oldAutoRegulateResolution
      ∧ (commandJson C).value "n_autoRegulateResolution"
          = QJsonValue.bool C.newAutoRegulateResolution)
    ∧ (sameObject (qt.fromBinaryData (QCCTV_CreateCommandPacket qt C)) (commandJson C) →
        ∀ key, (qt.fromBinaryData (QCCTV_CreateCommandPacket qt C)).value key
            ≠ QJsonValue.undefined ↔ key ∈ commandKeys) := by
  refine ⟨?_, ?_, by decide, rfl, rfl,
    ⟨rfl, rfl, rfl, rfl, rfl, rfl, rfl, rfl, rfl, rfl, rfl⟩, ?_⟩
  · simp only [QCCTV_CreateCommandPacket, commandJson, hofps, hnfps, hozoom, hnzoom, hfocus,
      hores, hnres, hoflash, hnflash, hoauto, hnauto]
  · have hk : (commandJson C).keys = commandKeys.reverse := rfl
    rw [hk]
    exact List.reverse_perm _
  · intro hs key
    rw [hs.2 key]
    exact commandJson_key_iff C key

theorem command_flags_not_transmitted_witness :
    QCCTV_CreateCommandPacket Demo.qt sampleCommand
      = QCCTV_CreateCommandPacket Demo.qt sampleCommandFlipped
    ∧ sampleCommand ≠ sampleCommandFlipped
    ∧ (Demo.qt.fromBinaryData (QCCTV_CreateCommandPacket Demo.qt sampleCommand)).keys.reverse
        = commandKeys
    ∧ (∀ key, (Demo.qt.fromBinaryData (QCCTV_CreateCommandPacket Demo.qt sampleCommand)).value
          key ≠ QJsonValue.undefined ↔ key ∈ commandKeys) :=
  ⟨(command_flags_not_transmitted Demo.qt sampleCommand sampleCommandFlipped rfl rfl rfl rfl
    rfl rfl rfl rfl rfl rfl rfl).1, by decide, by decide,
    (command_flags_not_transmitted Demo.qt sampleCommand sampleCommandFlipped rfl rfl rfl rfl
      rfl rfl rfl rfl rfl rfl rfl).2.2.2.2.2.2 (sameObject_of_eq _ _ (by decide))⟩

/-! ## Value normalizer and frame codec -/

theorem wrapInt32_of_isInt32 (n : Int) (h : isInt32 n) : wrapInt32 n = n := by
  unfold wrapInt32
  unfold isInt32 at h
  omega

theorem wrapInt32_isInt32 (n : Int) : isInt32 (wrapInt32 n) := by
  unfold wrapInt32 isInt32
  omega

/-- Claim C11, at a failing input: at tier Original the box `QCCTV_EncodeImage`
scales to is `0x0`, not the size of the source image, so the scaled image is
null and the returned buffer is empty for every source image, valid ones
included, such as the valid 2x2 frame of the sample report. -/
theorem encode_original_yields_nothing (qt : Qt) (image : QImage) :
    QCCTV_GetResolution QCCTV_Original = ⟨0, 0⟩
    ∧ QImage.scaled qt image (QCCTV_GetResolution QCCTV_Original) = QImage.null
    ∧ QCCTV_EncodeImage qt image QCCTV_Original = []
    ∧ sampleStream.image.isNull = false
    ∧ sizePair (QCCTV_GetResolution QCCTV_Original)
        ≠ (Int.ofNat sampleStream.image.width, Int.ofNat sampleStream.image.height)
    ∧ QCCTV_EncodeImage Demo.qt sampleStream.image QCCTV_Original = [] := by
  refine ⟨by decide, ?_, encodeImage_original qt image, by decide, by decide,
    encodeImage_original Demo.qt _⟩
  rw [getResolution_original]
  unfold QImage.scaled
  split
  · rfl
  · rfl

/-- Claim C12: `QCCTV_GetResolution` is defined on every integer; the seven
sized tiers, numbered 1 to 7, map to 176x144, 352x240, 704x240, 704x480,
720x480, 1280x720 and 1280x960, so their width and height are nonzero; the
tier Original, numbered 0, and every integer that is not an enumerated tier
map to `0x0`. -/
theorem resolution_mapping (r : Int) :
    (QCCTV_GetResolution QCCTV_QCIF = ⟨176, 144⟩
      ∧ QCCTV_GetResolution QCCTV_CIF = ⟨352, 240⟩
      ∧ QCCTV_GetResolution QCCTV_2CIF = ⟨704, 240⟩
      ∧ QCCTV_GetResolution QCCTV_4CIF = ⟨704, 480⟩
      ∧ QCCTV_GetResolution QCCTV_D1 = ⟨720, 480⟩
      ∧ QCCTV_GetResolution QCCTV_720p = ⟨1280, 720⟩
      ∧ QCCTV_GetResolution QCCTV_960p = ⟨1280, 960⟩)
    ∧ QCCTV_GetResolution QCCTV_Original = ⟨0, 0⟩
    ∧ [QCCTV_Original, QCCTV_QCIF, QCCTV_CIF, QCCTV_2CIF, QCCTV_4CIF, QCCTV_D1, QCCTV_720p,
        QCCTV_960p] = [0, 1, 2, 3, 4, 5, 6, 7]
    ∧ (1 ≤ r ∧ r ≤ 7 →
        (QCCTV_GetResolution r).width ≠ 0 ∧ (QCCTV_GetResolution r).height ≠ 0)
    ∧ (¬ (1 ≤ r ∧ r ≤ 7) → QCCTV_GetResolution r = ⟨0, 0⟩) := by
  refine ⟨by decide, by decide, by decide, ?_, ?_⟩
  · intro h
    have hr : r = 1 ∨ r = 2 ∨ r = 3 ∨ r = 4 ∨ r = 5 ∨ r = 6 ∨ r = 7 := by omega
    rcases hr with h | h | h | h | h | h | h <;> subst h <;> decide
  · intro h
    have h1 : r ≠ QCCTV_QCIF := by unfold QCCTV_QCIF; omega
    have h2 : r ≠ QCCTV_CIF := by unfold QCCTV_CIF; omega
    have h3 : r ≠ QCCTV_2CIF := by unfold QCCTV_2CIF; omega
    have h4 : r ≠ QCCTV_4CIF := by unfold QCCTV_4CIF; omega
    have h5 : r ≠ QCCTV_D1 := by unfold QCCTV_D1; omega
    have h6 : r ≠ QCCTV_720p := by unfold QCCTV_720p; omega
    have h7 : r ≠ QCCTV_960p := by unfold QCCTV_960p; omega
    simp only [QCCTV_GetResolution, h1, h2, h3, h4, h5, h6, h7, if_false]

theorem resolution_mapping_witness :
    (QCCTV_GetResolution 5).width ≠ 0 ∧ (QCCTV_GetResolution 5).height ≠ 0
    ∧ QCCTV_GetResolution 99 = ⟨0, 0⟩ ∧ QCCTV_GetResolution (-3) = ⟨0, 0⟩ :=
  ⟨((resolution_mapping 5).2.2.2.1 (by decide)).1, ((resolution_mapping 5).2.2.2.1 (by decide)).2,
    (resolution_mapping 99).2.2.2.2 (by decide), (resolution_mapping (-3)).2.2.2.2 (by decide)⟩

theorem imageQuality_exact (t : Int) (ht : -214748355 ≤ t ∧ t ≤ 214748373) :
    imageQuality t = max ((10 - (t + 1)) * 10) 40 := by
  unfold imageQuality
  rw [wrapInt32_of_isInt32]
  unfold isInt32
  omega

/-- Claim C13 fails as stated: 214748374 is a 32-bit tier index on which the
`int` product `(10 - (t + 1)) * 10` overflows; the quality `QCCTV_EncodeImage`
computes and passes on is 2147483646 where the formula of the claim gives 40,
and it is larger than the quality 90 of the smaller tier index 0, so the quality
is not non-increasing either. -/
theorem quality_overflow :
    isInt32 214748374
    ∧ imageQuality 214748374 = 2147483646
    ∧ max ((10 - ((214748374 : Int) + 1)) * 10) 40 = 40
    ∧ QCCTV_EncodeImage Demo.qt sampleStream.image 214748374
        = QImage.save Demo.qt
            (QImage.scaled Demo.qt sampleStream.image (QCCTV_GetResolution 214748374))
            2147483646
    ∧ (0 : Int) ≤ 214748374
    ∧ imageQuality 0 < imageQuality 214748374 := by
  decide

/-- Claim C13, amended: for every tier index `t` from -214748355 to 214748373,
the integers on which the `int` expression does not overflow and among which
are the eight enumerated tiers, the quality `QCCTV_EncodeImage` passes to the
image writer is `max ((10 - (t + 1)) * 10) 40`, and over that range it does not
increase with the tier index; for every tier index at all it is never below 40;
and over the enumerated tiers 0 to 7 it is 90, 80, 70, 60, 50, 40, 40, 40. -/
theorem quality_curve (qt : Qt) (image : QImage) (t t1 t2 : Int)
    (ht : -214748355 ≤ t ∧ t ≤ 214748373)
    (ht1 : -214748355 ≤ t1 ∧ t1 ≤ 214748373)
    (ht2 : -214748355 ≤ t2 ∧ t2 ≤ 214748373)
    (hle : t1 ≤ t2) :
    QCCTV_EncodeImage qt image t
        = QImage.save qt (QImage.scaled qt image (QCCTV_GetResolution t))
            (max ((10 - (t + 1)) * 10) 40)
    ∧ imageQuality t = max ((10 - (t + 1)) * 10) 40
    ∧ (∀ u : Int, 40 ≤ imageQuality u)
    ∧ imageQuality t2 ≤ imageQuality t1
    ∧ [imageQuality 0, imageQuality 1, imageQuality 2, imageQuality 3, imageQuality 4,
        imageQuality 5, imageQuality 6, imageQuality 7] = [90, 80, 70, 60, 50, 40, 40, 40] := by
  refine ⟨?_, imageQuality_exact t ht, ?_, ?_, by decide⟩
  · have h : QCCTV_EncodeImage qt image t
        = QImage.save qt (QImage.scaled qt image (QCCTV_GetResolution t)) (imageQuality t) := rfl
    rw [h, imageQuality_exact t ht]
  · intro u
    unfold imageQuality
    omega
  · rw [imageQuality_exact t1 ht1, imageQuality_exact t2 ht2]
    omega

theorem quality_curve_witness :
    (-214748355 ≤ (3 : Int) ∧ (3 : Int) ≤ 214748373)
    ∧ imageQuality 3 = max ((10 - (3 + 1)) * 10) 40
    ∧ imageQuality 7 ≤ imageQuality 2 :=
  ⟨by decide,
    (quality_curve Demo.qt sampleStream.image 3 2 7 (by decide) (by decide) (by decide)
      (by decide)).2.1,
    (quality_curve Demo.qt sampleStream.image 3 2 7 (by decide) (by decide) (by decide)
      (by decide)).2.2.2.1⟩

/-- Claim C14: `QCCTV_ValidFps` applied twice gives what it gives applied once,
for every integer; and when `QCCTV_MIN_FPS ≤ QCCTV_MAX_FPS` its result lies
between the two bounds, both included, and is its argument whenever the
argument already lies between them. -/
theorem valid_fps_clamp (k : Constants) (x : Int) :
    QCCTV_ValidFps k (QCCTV_ValidFps k x) = QCCTV_ValidFps k x
    ∧ (k.QCCTV_MIN_FPS ≤ k.QCCTV_MAX_FPS →
        k.QCCTV_MIN_FPS ≤ QCCTV_ValidFps k x ∧ QCCTV_ValidFps k x ≤ k.QCCTV_MAX_FPS
        ∧ (k.QCCTV_MIN_FPS ≤ x → x ≤ k.QCCTV_MAX_FPS → QCCTV_ValidFps k x = x)) := by
  unfold QCCTV_ValidFps
  refine ⟨by omega, fun h => ⟨by omega, by omega, fun h1 h2 => by omega⟩⟩

theorem valid_fps_clamp_witness :
    QCCTV_ValidFps sampleConstants (QCCTV_ValidFps sampleConstants 100)
        = QCCTV_ValidFps sampleConstants 100
    ∧ QCCTV_ValidFps sampleConstants 100 ≤ 40
    ∧ QCCTV_ValidFps sampleConstants 18 = 18 :=
  ⟨(valid_fps_clamp sampleConstants 100).1,
    ((valid_fps_clamp sampleConstants 100).2 (by decide)).2.1,
    ((valid_fps_clamp sampleConstants 18).2 (by decide)).2.2 (by decide) (by decide)⟩

/-- Whatever the bounds of the watchdog time, provided they are 32-bit values
with `0 ≤ QCCTV_MIN_WATCHDOG_TIME < QCCTV_MAX_WATCHDOG_TIME`, the frame rate
42949673 gives the lower bound where the clamp of the exact product gives the
upper one. -/
theorem watchdog_overflow_any_constants (k : Constants)
    (hmin : 0 ≤ k.QCCTV_MIN_WATCHDOG_TIME)
    (hlt : k.QCCTV_MIN_WATCHDOG_TIME < k.QCCTV_MAX_WATCHDOG_TIME)
    (hmax : isInt32 k.QCCTV_MAX_WATCHDOG_TIME) :
    QCCTV_GetWatchdogTime k 42949673 = k.QCCTV_MIN_WATCHDOG_TIME
    ∧ max k.QCCTV_MIN_WATCHDOG_TIME (min (42949673 * 50) k.QCCTV_MAX_WATCHDOG_TIME)
        = k.QCCTV_MAX_WATCHDOG_TIME := by
  unfold isInt32 at hmax
  have hw : wrapInt32 (42949673 * 50) = -2147483646 := by decide
  unfold QCCTV_GetWatchdogTime
  rw [hw]
  omega

/-- Claim C15 fails as stated: 42949673 is a 32-bit integer, and with watchdog
bounds 1000 and 5000 the call returns 1000 where the clamp of the exact product
`42949673 * 50` is 5000; the result is smaller than the one for the frame rate
100, so the function is not non-decreasing either. -/
theorem watchdog_overflow :
    isInt32 42949673
    ∧ sampleConstants.QCCTV_MIN_WATCHDOG_TIME ≤ sampleConstants.QCCTV_MAX_WATCHDOG_TIME
    ∧ QCCTV_GetWatchdogTime sampleConstants 42949673 = 1000
    ∧ max sampleConstants.QCCTV_MIN_WATCHDOG_TIME
        (min (42949673 * 50) sampleConstants.QCCTV_MAX_WATCHDOG_TIME) = 5000
    ∧ (100 : Int) ≤ 42949673
    ∧ QCCTV_GetWatchdogTime sampleConstants 42949673
        < QCCTV_GetWatchdogTime sampleConstants 100 := by
  decide

/-- Claim C15, amended: for every frame rate from -42949672 to 42949672, the
32-bit integers whose product with 50 is a 32-bit integer,
`QCCTV_GetWatchdogTime` returns the exact product clamped between
`QCCTV_MIN_WATCHDOG_TIME` and `QCCTV_MAX_WATCHDOG_TIME`, and it is
non-decreasing over that range; for every frame rate at all the result lies
between the two bounds when the lower one does not exceed the upper one. -/
theorem watchdog_time_clamp (k : Constants) (fps a b : Int)
    (hfps : -42949672 ≤ fps ∧ fps ≤ 42949672)
    (ha : -42949672 ≤ a ∧ a ≤ 42949672) (hb : -42949672 ≤ b ∧ b ≤ 42949672)
    (hab : a ≤ b) :
    QCCTV_GetWatchdogTime k fps
        = max k.QCCTV_MIN_WATCHDOG_TIME (min (fps * 50) k.QCCTV_MAX_WATCHDOG_TIME)
    ∧ QCCTV_GetWatchdogTime k a ≤ QCCTV_GetWatchdogTime k b
    ∧ (∀ x : Int, k.QCCTV_MIN_WATCHDOG_TIME ≤ k.QCCTV_MAX_WATCHDOG_TIME →
        k.QCCTV_MIN_WATCHDOG_TIME ≤ QCCTV_GetWatchdogTime k x
        ∧ QCCTV_GetWatchdogTime k x ≤ k.QCCTV_MAX_WATCHDOG_TIME)
    ∧ (∀ x : Int, isInt32 (x * 50) ↔ -42949672 ≤ x ∧ x ≤ 42949672) := by
  have hex : ∀ x : Int, -42949672 ≤ x ∧ x ≤ 42949672 →
      QCCTV_GetWatchdogTime k x
        = max k.QCCTV_MIN_WATCHDOG_TIME (min (x * 50) k.QCCTV_MAX_WATCHDOG_TIME) := by
    intro x hx
    unfold QCCTV_GetWatchdogTime
    rw [wrapInt32_of_isInt32]
    unfold isInt32
    omega
  refine ⟨hex fps hfps, ?_, ?_, ?_⟩
  · rw [hex a ha, hex b hb]
    omega
  · intro x hle
    unfold QCCTV_GetWatchdogTime
    omega
  · intro x
    unfold isInt32
    omega

theorem watchdog_time_clamp_witness :
    (-42949672 ≤ (30 : Int) ∧ (30 : Int) ≤ 42949672)
    ∧ QCCTV_GetWatchdogTime sampleConstants 30 = max 1000 (min (30 * 50) 5000)
    ∧ QCCTV_GetWatchdogTime sampleConstants 10 ≤ QCCTV_GetWatchdogTime sampleConstants 42949672 :=
  ⟨by decide,
    (watchdog_time_clamp sampleConstants 30 10 42949672 (by decide) (by decide) (by decide)
      (by decide)).1,
    (watchdog_time_clamp sampleConstants 30 10 42949672 (by decide) (by decide) (by decide)
      (by decide)).2.1⟩

theorem intAnd_zero_left (b : Int) : intAnd 0 b = 0 := by
  unfold intAnd
  have h : ((0 : Int) % 4294967296).toNat = 0 := by decide
  rw [h, Nat.zero_and]
  decide

/-- Claim C16: with no translation installed, `QCCTV_GetStatusString` returns
"Camera OK" when the mask is the default value 0, and otherwise the names of
the flags set in the mask, in the order Low Battery, Discharging, Flashlight
Failure, Video Failure, joined by " | " with no separator at either end; a
mask in which only the low-battery flag is set gives "Low Battery", and one in
which only the low-battery and video-failure flags are set gives
"Low Battery | Video Failure". -/
theorem status_string (k : Constants) (status : Int) :
    QCCTV_GetStatusString id k status
      = (if status = 0 then "Camera OK"
         else String.intercalate " | " (activeStatusNames k status))
    ∧ (intAnd status k.QCCTV_CAMSTATUS_LOW_BATTERY ≠ 0 →
        intAnd status k.QCCTV_CAMSTATUS_DISCHARING = 0 →
        intAnd status k.QCCTV_CAMSTATUS_LIGHT_FAILURE = 0 →
        intAnd status k.QCCTV_CAMSTATUS_VIDEO_FAILURE = 0 →
        QCCTV_GetStatusString id k status = "Low Battery")
    ∧ (intAnd status k.QCCTV_CAMSTATUS_LOW_BATTERY ≠ 0 →
        intAnd status k.QCCTV_CAMSTATUS_DISCHARING = 0 →
        intAnd status k.QCCTV_CAMSTATUS_LIGHT_FAILURE = 0 →
        intAnd status k.QCCTV_CAMSTATUS_VIDEO_FAILURE ≠ 0 →
        QCCTV_GetStatusString id k status = "Low Battery | Video Failure") := by
  have main : QCCTV_GetStatusString id k status
      = (if status = 0 then "Camera OK"
         else String.intercalate " | " (activeStatusNames k status)) := by
    unfold QCCTV_GetStatusString activeStatusNames QCCTV_CAMSTATUS_DEFAULT
    by_cases h0 : status = 0
    · simp only [h0, if_true]
      rfl
    · simp only [h0, if_false]
      by_cases h1 : intAnd status k.QCCTV_CAMSTATUS_LOW_BATTERY = 0 <;>
      by_cases h2 : intAnd status k.QCCTV_CAMSTATUS_DISCHARING = 0 <;>
      by_cases h3 : intAnd status k.QCCTV_CAMSTATUS_LIGHT_FAILURE = 0 <;>
      by_cases h4 : intAnd status k.QCCTV_CAMSTATUS_VIDEO_FAILURE = 0 <;>
      simp only [h1, h2, h3, h4, ne_eq, not_true_eq_false, not_false_eq_true, if_true,
        if_false, id] <;>
      decide
  have hne : intAnd status k.QCCTV_CAMSTATUS_LOW_BATTERY ≠ 0 → status ≠ 0 := by
    intro h e
    rw [e, intAnd_zero_left] at h
    exact h rfl
  refine ⟨main, ?_, ?_⟩
  · intro h1 h2 h3 h4
    rw [main, if_neg (hne h1)]
    simp only [activeStatusNames, h1, h2, h3, h4, ne_eq, not_true_eq_false, not_false_eq_true,
      if_true, if_false]
    decide
  · intro h1 h2 h3 h4
    rw [main, if_neg (hne h1)]
    simp only [activeStatusNames, h1, h2, h3, h4, ne_eq, not_true_eq_false, not_false_eq_true,
      if_true, if_false]
    decide

theorem status_string_witness :
    QCCTV_GetStatusString id sampleConstants 0 = "Camera OK"
    ∧ QCCTV_GetStatusString id sampleConstants 1 = "Low Battery"
    ∧ QCCTV_GetStatusString id sampleConstants 9 = "Low Battery | Video Failure" :=
  ⟨(status_string sampleConstants 0).1,
    (status_string sampleConstants 1).2.1 (by decide) (by decide) (by decide) (by decide),
    (status_string sampleConstants 9).2.2 (by decide) (by decide) (by decide) (by decide)⟩

/-! ## Initialization and labels -/

/-- Claim C17: after `QCCTV_InitStream` on any packet, whatever it held, the
frame rate is 18, the zoom 0, the tier Original, the status the default one,
the name "Unknown", the group "Default", `autoRegulateResolution` is `true`,
`flashlightEnabled` and `supportsZoom` are `false`, the stored checksum is 0,
and the image is the 640x480 status image with the text "NO CAMERA IMAGE", a
valid image. -/
theorem stream_defaults (qt : Qt) (p : QCCTV_StreamPacket) :
    QCCTV_InitStream qt (some p) =
      some { crc32 := 0
             fps := 18
             zoom := 0
             supportsZoom := false
             cameraName := "Unknown"
             cameraGroup := "Default"
             flashlightEnabled := false
             resolution := QCCTV_Original
             autoRegulateResolution := true
             cameraStatus := QCCTV_CAMSTATUS_DEFAULT
             image := QCCTV_CreateStatusImage qt ⟨640, 480⟩ "NO CAMERA IMAGE" }
    ∧ QCCTV_CreateStatusImage qt ⟨640, 480⟩ "NO CAMERA IMAGE"
        = ⟨640, 480, qt.drawText 640 480 "NO CAMERA IMAGE"⟩
    ∧ (QCCTV_CreateStatusImage qt ⟨640, 480⟩ "NO CAMERA IMAGE").isNull = false :=
  ⟨rfl, rfl, rfl⟩

/-- Claim C19, at a failing input: `QCCTV_Resolutions` returns seven labels and
the sizes written in the labels 2 to 7 are the sizes `QCCTV_GetResolution`
returns for the tiers 2 to 7, but the first label reads 176x120 where
`QCCTV_GetResolution` returns 176x144 for tier 1 (QCIF). -/
theorem resolution_label_mismatch :
    (QCCTV_Resolutions id).length = 7
    ∧ (QCCTV_Resolutions id).head? = some "QCIF (176x120)"
    ∧ (QCCTV_Resolutions id).map labelSize
        = [some (176, 120), some (352, 240), some (704, 240), some (704, 480),
           some (720, 480), some (1280, 720), some (1280, 960)]
    ∧ [1, 2, 3, 4, 5, 6, 7].map (fun i => some (sizePair (QCCTV_GetResolution i)))
        = [some (176, 144), some (352, 240), some (704, 240), some (704, 480),
           some (720, 480), some (1280, 720), some (1280, 960)]
    ∧ (QCCTV_Resolutions id).head?.bind labelSize
        ≠ some (sizePair (QCCTV_GetResolution QCCTV_QCIF)) := by
  decide

end QCCTV
